import Mathlib

set_option maxRecDepth 40000

/-!
Verification development for the semantic-photo backend.

The definitions below are shallow embeddings of the Python source under
src/backend/app.  Machine details that the claims do not touch (HTTP
framing, SQLAlchemy sessions, the object store wire protocol) are modelled
as explicit state records and context records of pure functions; byte
strings are lists of natural numbers below 256; floating point scores are
modelled as exact rationals.  Every definition is annotated with the
source file and function it embeds.
-/

namespace SemanticPhoto

/-! Byte strings.  A Python bytes object is a list of byte values. -/

abbrev Bytes := List Nat

/-- Python bytes.startswith, written as structural recursion so that
concrete instances unfold by simp.  First argument is the data, second the
pattern. -/
def bytesStartsWith : Bytes → Bytes → Bool
  | _, [] => true
  | [], _ :: _ => false
  | a :: as, p :: ps => a == p && bytesStartsWith as ps

/-- Character list version of startswith, shared by the string helpers
below. -/
def charsStartWith : List Char → List Char → Bool
  | _, [] => true
  | [], _ :: _ => false
  | a :: as, p :: ps => a == p && charsStartWith as ps

/-- Python str.startswith.  The built in String.startsWith of Lean does
not reduce by whnf, so the check is written over the character list. -/
def strStartsWith (s pat : String) : Bool := charsStartWith s.data pat.data

/-- Python str.endswith. -/
def strEndsWith (s pat : String) : Bool := charsStartWith s.data.reverse pat.data.reverse

/-- Python str.lower. -/
def strToLower (s : String) : String := String.mk (s.data.map Char.toLower)

/-- Python slice b[i:j] on bytes. -/
def bytesSlice (b : Bytes) (i j : Nat) : Bytes :=
  (b.drop i).take (j - i)

/-! Magic constants of src/backend/app/services/zip_utils.py. -/

/-- zip_utils.JPEG_MAGIC, the three byte JPEG signature. -/
def zipUtilsJpegMagic : Bytes := [0xFF, 0xD8, 0xFF]

/-- zip_utils.PNG_MAGIC, the full eight byte PNG signature. -/
def zipUtilsPngMagic : Bytes := [0x89, 0x50, 0x4E, 0x47, 0x0D, 0x0A, 0x1A, 0x0A]

/-- zip_utils.WEBP_RIFF, the ASCII bytes of RIFF. -/
def webpRiff : Bytes := [0x52, 0x49, 0x46, 0x46]

/-- zip_utils.WEBP_TYPE, the ASCII bytes of WEBP. -/
def webpType : Bytes := [0x57, 0x45, 0x42, 0x50]

/-- zip_utils.GIF87A signature, ASCII GIF87a. -/
def gif87a : Bytes := [0x47, 0x49, 0x46, 0x38, 0x37, 0x61]

/-- zip_utils.GIF89A signature, ASCII GIF89a. -/
def gif89a : Bytes := [0x47, 0x49, 0x46, 0x38, 0x39, 0x61]

/-- The ASCII bytes of ftyp. -/
def ftypAtom : Bytes := [0x66, 0x74, 0x79, 0x70]

/-- HEIC brand codes accepted by zip_utils.detect_image_content_type:
heic, heif, heix, hevc as ASCII bytes. -/
def heicBrands : List Bytes :=
  [[0x68, 0x65, 0x69, 0x63], [0x68, 0x65, 0x69, 0x66],
   [0x68, 0x65, 0x69, 0x78], [0x68, 0x65, 0x76, 0x63]]

/-- Modelled from the Python standard library: mimetypes.guess_type,
restricted to the filename extensions that occur in this development.  The
stdlib maps an extension (the suffix after the final dot, compared case
insensitively) to a mime type; filenames with no known extension give
none. -/
def mimetypes_guess_type (filename : String) : Option String :=
  let lower := strToLower filename
  if strEndsWith lower ".jpg" then some "image/jpeg"
  else if strEndsWith lower ".jpeg" then some "image/jpeg"
  else if strEndsWith lower ".png" then some "image/png"
  else if strEndsWith lower ".gif" then some "image/gif"
  else if strEndsWith lower ".webp" then some "image/webp"
  else if strEndsWith lower ".bmp" then some "image/bmp"
  else if strEndsWith lower ".tiff" then some "image/tiff"
  else if strEndsWith lower ".tif" then some "image/tiff"
  else if strEndsWith lower ".heic" then some "image/heic"
  else if strEndsWith lower ".txt" then some "text/plain"
  else if strEndsWith lower ".zip" then some "application/zip"
  else none

/-- The magic byte cascade of zip_utils.detect_image_content_type
(src/backend/app/services/zip_utils.py lines 33 to 49): JPEG, PNG, GIF,
WebP via RIFF....WEBP, HEIC or HEIF via the ftyp atom at offset 4. -/
def magicImageMime (fileBytes : Bytes) : Option String :=
  if bytesStartsWith fileBytes zipUtilsJpegMagic then some "image/jpeg"
  else if bytesStartsWith fileBytes zipUtilsPngMagic then some "image/png"
  else if bytesStartsWith fileBytes gif87a || bytesStartsWith fileBytes gif89a then
    some "image/gif"
  else if fileBytes.length ≥ 12 && (bytesSlice fileBytes 0 4 == webpRiff)
      && (bytesSlice fileBytes 8 12 == webpType) then some "image/webp"
  else if fileBytes.length ≥ 12 && (bytesSlice fileBytes 4 8 == ftypAtom)
      && heicBrands.contains (bytesSlice fileBytes 8 12) then some "image/heic"
  else none

/-- Embedding of zip_utils.detect_image_content_type: the filename is
passed to mimetypes.guess_type first and an image mime guess is returned
immediately; the magic byte checks run only when the extension guess is
absent or not an image mime. -/
def detect_image_content_type (filename : String) (fileBytes : Bytes) : Option String :=
  match mimetypes_guess_type filename with
  | some guessed =>
    if strStartsWith guessed "image/" then some guessed
    else magicImageMime fileBytes
  | none => magicImageMime fileBytes

/-! ZIP archives.  The zipfile parsing of a byte string is not itself
modelled; a zip attachment carries its parsed view: either a list of
entries or a parse failure (zipfile.BadZipFile). -/

/-- One member of a ZIP archive as zipfile exposes it: a name, the
directory flag, the declared uncompressed size from the central directory,
and the bytes that archive.read returns. -/
structure ZipEntry where
  filename : String
  isDir : Bool
  fileSize : Nat
  content : Bytes
  deriving Repr, DecidableEq

/-- The result of handing a byte string to zipfile.ZipFile. -/
inductive ZipData where
  | valid (entries : List ZipEntry)
  | badZip
  deriving Repr, DecidableEq

/-- Embedding of zip_utils.extract_image_files_from_zip: directory
entries are skipped, entries whose declared or actual size exceeds the
limit are skipped, entries without a detected image content type are
skipped, everything else is returned in archive order.  A malformed
archive raises ValueError. -/
def extract_image_files_from_zip (zip : ZipData) (maxFileSizeBytes : Nat) :
    Except String (List (String × Bytes × String)) :=
  match zip with
  | .badZip => .error "Invalid ZIP archive."
  | .valid entries =>
    .ok (entries.filterMap fun info =>
      if info.isDir then none
      else if info.fileSize > maxFileSizeBytes then none
      else if info.content.length > maxFileSizeBytes then none
      else match detect_image_content_type info.filename info.content with
        | none => none
        | some contentType => some (info.filename, info.content, contentType))

/-- zip_utils.ZIP_MIME_TYPES. -/
def zipMimeTypes : List String :=
  ["application/zip", "application/x-zip-compressed", "multipart/x-zip"]

/-- Embedding of zip_utils.is_zip_upload. -/
def is_zip_upload (filename : Option String) (contentType : Option String) : Bool :=
  let normalizedType := strToLower (contentType.getD "")
  if zipMimeTypes.contains normalizedType then true
  else strEndsWith (strToLower (filename.getD "")) ".zip"

/-! Upload ingestion, src/backend/app/api/photos.py. -/

/-- photos.MAX_FILE_SIZE_BYTES = 50 MiB. -/
def MAX_FILE_SIZE_BYTES : Nat := 50 * 1024 * 1024

/-- photos.JPEG_MAGIC, same three bytes as in zip_utils. -/
def uploadJpegMagic : Bytes := [0xFF, 0xD8, 0xFF]

/-- photos.PNG_MAGIC: only the four bytes 0x89 P N G, unlike the eight
byte signature used in zip_utils. -/
def uploadPngMagic : Bytes := [0x89, 0x50, 0x4E, 0x47]

/-- A multipart upload as FastAPI presents it.  The bytes of the file are
listed together with the view zipfile.ZipFile takes of those same bytes,
since the archive format itself is not modelled. -/
structure UploadFile where
  filename : Option String
  contentType : Option String
  fileBytes : Bytes
  zipData : ZipData
  deriving Repr

/-- Embedding of photos._normalize_image_content_type.  The Python
truthiness test on content_type is subsumed by startsWith, because the
empty string does not start with image/. -/
def normalize_image_content_type (filename : String) (contentType : Option String)
    (fileBytes : Bytes) : String :=
  if strStartsWith (contentType.getD "") "image/" then contentType.getD ""
  else match detect_image_content_type filename fileBytes with
    | some detected => detected
    | none => "application/octet-stream"

/-- Embedding of photos._assert_magic_bytes as a boolean: false when the
function would raise HTTP 422. -/
def magic_bytes_ok (contentType : String) (fileBytes : Bytes) : Bool :=
  if (contentType == "image/jpeg" || contentType == "image/jpg")
      && !bytesStartsWith fileBytes uploadJpegMagic then false
  else if contentType == "image/png" && !bytesStartsWith fileBytes uploadPngMagic then
    false
  else true

/-- Embedding of photos._expand_upload_files.  Returns the expanded image
descriptors in order together with the failed counter: a ZIP attachment
that fails to parse counts one failure, a non ZIP attachment whose
normalized content type is not an image counts one failure, and image
entries extracted from a ZIP are appended in archive order. -/
def expand_upload_files (files : List UploadFile) : List (String × Bytes × String) × Nat :=
  files.foldl
    (fun acc file =>
      let filename := file.filename.getD "upload"
      if is_zip_upload file.filename file.contentType then
        match extract_image_files_from_zip file.zipData MAX_FILE_SIZE_BYTES with
        | .error _ => (acc.1, acc.2 + 1)
        | .ok images => (acc.1 ++ images, acc.2)
      else
        let contentType := normalize_image_content_type filename file.contentType file.fileBytes
        if strStartsWith contentType "image/" then
          (acc.1 ++ [(filename, file.fileBytes, contentType)], acc.2)
        else (acc.1, acc.2 + 1))
    ([], 0)

/-- Python exceptions that escape the upload handler in the model. -/
inductive PyExc where
  | nameError (name : String)
  | httpException (status : Nat) (detail : String)
  deriving Repr, DecidableEq

/-- Names bound in the body of photos.upload_photos: its parameters and
every name the function assigns.  The function never assigns user_id. -/
def uploadPhotosLocalNames : List String :=
  ["files", "current_user", "db",
   "uploaded_count", "skipped_count", "failed_count", "queued_photo_ids",
   "expanded_images", "failed_files",
   "image_name", "image_bytes", "image_content_type",
   "phash_str", "thumbnail_bytes", "exif",
   "storage_key", "thumbnail_key", "error_code", "photo", "photo_id"]

/-- Module level names of src/backend/app/api/photos.py: the imports and
the module constants.  user_id is not among them. -/
def photosModuleGlobals : List String :=
  ["annotations", "io", "json", "zipfile", "datetime", "FilePath", "UUID", "uuid4",
   "BotoCoreError", "ClientError", "BaseModel",
   "APIRouter", "Depends", "File", "HTTPException", "Path", "Query", "UploadFile",
   "StreamingResponse", "and_", "desc", "func", "or_", "select", "AsyncSession",
   "require_current_user", "get_db",
   "get_embedding_queue_length", "push_embedding_job",
   "Photo", "PhotoTag", "Tag", "User",
   "compute_phash", "extract_exif",
   "PERSON_CLUSTER_PREFIX", "PERSON_NAME_PREFIX", "auto_assign_person_cluster",
   "delete_file", "generate_presigned_url", "get_file", "upload_file",
   "generate_thumbnail",
   "detect_image_content_type", "extract_image_files_from_zip", "is_zip_upload",
   "router", "MAX_FILE_SIZE_BYTES", "JPEG_MAGIC", "PNG_MAGIC",
   "DuplicateDeletePayload", "_person_tag_filter", "_parse_taken_at",
   "_assert_magic_bytes", "_normalize_image_content_type", "_expand_upload_files",
   "preview_upload_photos", "upload_photos", "list_photos", "embedding_status",
   "start_embedding_for_pending", "list_map_photos", "list_trashed_photos",
   "export_photos_archive", "restore_photo", "hard_delete_photo", "get_photo",
   "delete_photo", "list_duplicates", "delete_duplicates", "delete_all_duplicates",
   "list_people_groups", "people_group_photos", "PeopleAssignPayload",
   "assign_people_name", "PeopleRemovePayload", "remove_from_people_group",
   "reindex_people_groups"]

/-- Python name resolution inside upload_photos: a name evaluates only
when it is a local of the function or a module global; otherwise the
interpreter raises NameError.  The returned string is irrelevant for an
unbound name; for the name user_id the lookup always fails. -/
def resolveUploadName (name : String) : Except PyExc Unit :=
  if uploadPhotosLocalNames.contains name || photosModuleGlobals.contains name then
    .ok ()
  else .error (.nameError name)

/-- EXIF record as services/exif.extract_exif returns it: string taken_at
in EXIF format, optional dimensions, GPS and camera make. -/
structure ExifRecord where
  taken_at : Option String
  width : Option Nat
  height : Option Nat
  gps_lat : Option ℚ
  gps_lng : Option ℚ
  camera_make : Option String
  deriving Repr

/-- A calendar date with a time sequence component, standing in for a
Python datetime. -/
structure PyDateTime where
  year : Int
  month : Nat
  day : Nat
  seq : Nat
  deriving Repr, DecidableEq

/-- External effects of the per file ingestion pipeline: perceptual hash
(none models a decode exception from PIL), thumbnailing, EXIF extraction,
datetime.strptime on the EXIF taken_at string, and the object store put
(error models the storage exception branches of upload_photos). -/
structure IngestCtx where
  phash : Bytes → Option String
  thumbnail : Bytes → Bytes
  exif : Bytes → ExifRecord
  strptime : String → Option PyDateTime
  storePut : String → Bytes → String → Except String Unit

/-- Embedding of photos._parse_taken_at. -/
def parse_taken_at (ctx : IngestCtx) (exifTakenAt : Option String) : Option PyDateTime :=
  match exifTakenAt with
  | none => none
  | some s => ctx.strptime s

/-- A photos table row.  The id is issued by the database layer at flush
time. -/
structure Photo where
  id : Nat
  userId : Nat
  storageKey : String
  thumbnailKey : String
  originalFilename : String
  fileSizeBytes : Nat
  mimeType : String
  width : Option Nat
  height : Option Nat
  takenAt : Option PyDateTime
  uploadedAt : Nat
  source : String
  sourceId : Option String
  phash : Option String
  embedding : Option (List ℚ)
  embeddingGeneratedAt : Option Nat
  gpsLat : Option ℚ
  gpsLng : Option ℚ
  cameraMake : Option String
  isDeleted : Bool
  deriving Repr

/-- A Photo object constructed in upload_photos before the session is
flushed: every column except the id, which SQLAlchemy assigns only at
INSERT time. -/
structure PhotoDraft where
  userId : Nat
  storageKey : String
  thumbnailKey : String
  originalFilename : String
  fileSizeBytes : Nat
  mimeType : String
  width : Option Nat
  height : Option Nat
  takenAt : Option PyDateTime
  source : String
  sourceId : Option String
  phash : Option String
  deriving Repr

/-- Accumulator of the upload loop of photos.upload_photos. -/
structure UploadAcc where
  uploaded : Nat
  skipped : Nat
  failed : Nat
  drafts : List PhotoDraft
  queuedPhotoIds : List String
  nextKeyToken : Nat
  deriving Repr

/-- The per image loop of photos.upload_photos, lines 168 to 238: size
check, magic byte check, perceptual hash (each failure increments failed
and continues), then thumbnail, EXIF, storage keys, the two storage puts,
the Photo construction, and the append of str(photo.id).  The storage key
f-string reads the name user_id, which resolves through Python scoping
rules before the uuid token is even minted; the id appended to
queued_photo_ids is None before the flush, so str renders it as the
string None. -/
def uploadLoop (ctx : IngestCtx) (currentUserId : Nat) :
    List (String × Bytes × String) → UploadAcc → Except PyExc UploadAcc
  | [], acc => .ok acc
  | (imageName, imageBytes, imageContentType) :: rest, acc =>
    if imageBytes.length > MAX_FILE_SIZE_BYTES then
      uploadLoop ctx currentUserId rest { acc with failed := acc.failed + 1 }
    else if !magic_bytes_ok imageContentType imageBytes then
      uploadLoop ctx currentUserId rest { acc with failed := acc.failed + 1 }
    else match ctx.phash imageBytes with
      | none => uploadLoop ctx currentUserId rest { acc with failed := acc.failed + 1 }
      | some phashStr =>
        let thumbnailBytes := ctx.thumbnail imageBytes
        let exif := ctx.exif imageBytes
        match resolveUploadName "user_id" with
        | .error e => .error e
        | .ok _ =>
          let storageKey :=
            "users/unbound/photos/" ++ toString acc.nextKeyToken ++ ".jpg"
          let thumbnailKey :=
            "users/unbound/thumbnails/" ++ toString (acc.nextKeyToken + 1) ++ ".webp"
          match ctx.storePut storageKey imageBytes imageContentType with
          | .error detail => .error (.httpException 503 detail)
          | .ok _ =>
            match ctx.storePut thumbnailKey thumbnailBytes "image/webp" with
            | .error detail => .error (.httpException 503 detail)
            | .ok _ =>
              let draft : PhotoDraft :=
                { userId := currentUserId
                  storageKey := storageKey
                  thumbnailKey := thumbnailKey
                  originalFilename := imageName
                  fileSizeBytes := imageBytes.length
                  mimeType := imageContentType
                  width := exif.width
                  height := exif.height
                  takenAt := parse_taken_at ctx exif.taken_at
                  source := "manual_upload"
                  sourceId := none
                  phash := some phashStr }
              uploadLoop ctx currentUserId rest
                { acc with
                  uploaded := acc.uploaded + 1
                  drafts := acc.drafts ++ [draft]
                  queuedPhotoIds := acc.queuedPhotoIds ++ ["None"]
                  nextKeyToken := acc.nextKeyToken + 2 }

/-- The response and committed effects of upload_photos. -/
structure UploadResult where
  uploaded : Nat
  skipped : Nat
  failed : Nat
  insertedPhotos : List PhotoDraft
  pushedJobs : List String
  deriving Repr

/-- Embedding of photos.upload_photos: reject an empty file list with
HTTP 400, expand ZIP attachments, run the per image loop, commit the
drafts, push the queued id strings, and answer with the three counters.
The skipped counter is initialised to zero and never incremented anywhere
in the function. -/
def upload_photos (ctx : IngestCtx) (currentUserId : Nat) (files : List UploadFile) :
    Except PyExc UploadResult :=
  if files.isEmpty then .error (.httpException 400 "No files provided.")
  else
    let expanded := expand_upload_files files
    let acc0 : UploadAcc :=
      { uploaded := 0, skipped := 0, failed := expanded.2
        drafts := [], queuedPhotoIds := [], nextKeyToken := 0 }
    match uploadLoop ctx currentUserId expanded.1 acc0 with
    | .error e => .error e
    | .ok acc =>
      .ok { uploaded := acc.uploaded, skipped := acc.skipped, failed := acc.failed
            insertedPhotos := acc.drafts, pushedJobs := acc.queuedPhotoIds }

/-! Concrete scenario for claim C1: the happy upload of spec section 8. -/

/-- A run of n zero bytes, used as filler for large test files. -/
def zeroBytes (n : Nat) : Bytes := List.replicate n 0

theorem zeroBytes_length (n : Nat) : (zeroBytes n).length = n := by
  simp [zeroBytes]

/-- Bytes of a 2 MiB file carrying the JPEG magic header. -/
def c1aBytes : Bytes := 0xFF :: 0xD8 :: 0xFF :: 0xE0 :: zeroBytes (2 * 1024 * 1024 - 4)

/-- Bytes of a 1 MiB file carrying the PNG magic header. -/
def c1cBytes : Bytes :=
  0x89 :: 0x50 :: 0x4E :: 0x47 :: 0x0D :: 0x0A :: 0x1A :: 0x0A ::
    zeroBytes (1024 * 1024 - 8)

/-- Bytes of a small plain text file, the ASCII letters hi. -/
def c1dBytes : Bytes := [0x68, 0x69]

/-- The upload a.jpg: a valid 2 MiB JPEG with a declared JPEG content
type; its bytes are not a ZIP archive. -/
def c1aJpg : UploadFile :=
  { filename := some "a.jpg", contentType := some "image/jpeg"
    fileBytes := c1aBytes, zipData := .badZip }

/-- The upload b.zip: a ZIP archive holding c.png (1 MiB PNG) and d.txt
(a non image text file). -/
def c1bZip : UploadFile :=
  { filename := some "b.zip", contentType := some "application/zip"
    fileBytes := [0x50, 0x4B, 0x03, 0x04]
    zipData := .valid
      [{ filename := "c.png", isDir := false
         fileSize := 1024 * 1024, content := c1cBytes },
       { filename := "d.txt", isDir := false
         fileSize := 2, content := c1dBytes }] }

/-- Ingestion context for the scenario: hashing, thumbnailing, EXIF and
the object store all succeed. -/
def c1ctx : IngestCtx :=
  { phash := fun _ => some "c1hash"
    thumbnail := fun _ => [0x52, 0x49, 0x46, 0x46]
    exif := fun _ =>
      { taken_at := none, width := none, height := none
        gps_lat := none, gps_lng := none, camera_make := none }
    strptime := fun _ => none
    storePut := fun _ _ _ => .ok () }

theorem c1aBytes_length : c1aBytes.length = 2 * 1024 * 1024 := by
  show (0xFF :: 0xD8 :: 0xFF :: 0xE0 :: zeroBytes (2 * 1024 * 1024 - 4)).length
      = 2 * 1024 * 1024
  rw [List.length_cons, List.length_cons, List.length_cons, List.length_cons,
    zeroBytes_length]

theorem c1cBytes_length : c1cBytes.length = 1024 * 1024 := by
  show (0x89 :: 0x50 :: 0x4E :: 0x47 :: 0x0D :: 0x0A :: 0x1A :: 0x0A ::
      zeroBytes (1024 * 1024 - 8)).length = 1024 * 1024
  rw [List.length_cons, List.length_cons, List.length_cons, List.length_cons,
    List.length_cons, List.length_cons, List.length_cons, List.length_cons,
    zeroBytes_length]

theorem c1cBytes_small : ¬ (c1cBytes.length > MAX_FILE_SIZE_BYTES) := by
  rw [c1cBytes_length]
  decide

theorem c1aBytes_small : ¬ (c1aBytes.length > MAX_FILE_SIZE_BYTES) := by
  rw [c1aBytes_length]
  decide

theorem c1_expand :
    expand_upload_files [c1aJpg, c1bZip] =
      ([("a.jpg", c1aBytes, "image/jpeg"), ("c.png", c1cBytes, "image/png")], 0) := by
  have hz1 : is_zip_upload (some "a.jpg") (some "image/jpeg") = false := by rfl
  have hz2 : is_zip_upload (some "b.zip") (some "application/zip") = true := by rfl
  have hn1 : normalize_image_content_type "a.jpg" (some "image/jpeg") c1aBytes
      = "image/jpeg" := by rfl
  have hs1 : strStartsWith "image/jpeg" "image/" = true := by rfl
  have hd : detect_image_content_type "d.txt" c1dBytes = none := by rfl
  have hc : detect_image_content_type "c.png" c1cBytes = some "image/png" := by rfl
  have hsz1 : ¬ (MAX_FILE_SIZE_BYTES < 1024 * 1024) := by decide
  have hsz2 : ¬ (MAX_FILE_SIZE_BYTES < 2) := by decide
  have hsz3 : ¬ (MAX_FILE_SIZE_BYTES < c1dBytes.length) := by decide
  simp [expand_upload_files, c1aJpg, c1bZip, hz1, hz2, hn1, hs1,
    extract_image_files_from_zip, hd, hc, c1cBytes_small, hsz1, hsz2, hsz3]

/-- The first expanded image that passes the size check, the magic byte
check and the perceptual hash aborts the upload loop with NameError on
user_id, because the name resolution in the storage key f-string fails. -/
theorem uploadLoop_first_valid (ctx : IngestCtx) (uid : Nat)
    (imageName : String) (imageBytes : Bytes) (imageContentType : String)
    (rest : List (String × Bytes × String)) (acc : UploadAcc)
    (h1 : ¬ (imageBytes.length > MAX_FILE_SIZE_BYTES))
    (h2 : magic_bytes_ok imageContentType imageBytes = true)
    (h3 : (ctx.phash imageBytes).isSome) :
    uploadLoop ctx uid ((imageName, imageBytes, imageContentType) :: rest) acc
      = .error (.nameError "user_id") := by
  obtain ⟨ph, hph⟩ := Option.isSome_iff_exists.mp h3
  have hres : resolveUploadName "user_id" = .error (.nameError "user_id") := by rfl
  rw [uploadLoop, if_neg h1, h2]
  simp only [Bool.not_true, Bool.false_eq_true, if_false, hph, hres]

/-- Claim C1.  The spec asserts the two file batch of the happy upload
scenario succeeds with counters uploaded 2, skipped 0, failed 0, inserts
two Photo rows and pushes two embedding jobs.  The code instead raises
NameError: the storage key f-string in upload_photos reads the name
user_id, which is bound neither in the function nor at module level of
photos.py, so the first image that passes validation aborts the whole
request before any row is created. -/
theorem claim_C1 :
    upload_photos c1ctx 7 [c1aJpg, c1bZip] = .error (.nameError "user_id") := by
  have hmag : magic_bytes_ok "image/jpeg" c1aBytes = true := by
    simp [magic_bytes_ok, c1aBytes, bytesStartsWith, uploadJpegMagic]
  have hps : (c1ctx.phash c1aBytes).isSome := by simp [c1ctx]
  have hstep := uploadLoop_first_valid c1ctx 7 "a.jpg" c1aBytes "image/jpeg"
    [("c.png", c1cBytes, "image/png")]
    { uploaded := 0, skipped := 0, failed := 0
      drafts := [], queuedPhotoIds := [], nextKeyToken := 0 }
    c1aBytes_small hmag hps
  simp [upload_photos, c1_expand, hstep]

/-! Drive sync batch commits, src/backend/app/services/drive_sync.py. -/

/-- drive_sync.DRIVE_MAX_FILE_SIZE_BYTES = 512 MiB. -/
def DRIVE_MAX_FILE_SIZE_BYTES : Nat := 512 * 1024 * 1024

/-- A DriveSyncFile table row. -/
structure DriveSyncFileRow where
  jobId : Nat
  userId : Nat
  sourceFileId : String
  sourceEntryId : String
  filename : String
  mimeType : String
  sizeBytes : Nat
  state : String
  batchNo : Nat
  errorMessage : Option String
  processedAt : Option Nat
  deriving Repr

/-- One pending batch item built by process_drive_sync_job: the payload
either held in memory (file_bytes) or materialised to a temp file
(file_path). -/
structure BatchItem where
  jobId : Nat
  sourceFileId : String
  sourceEntryId : String
  filename : String
  mimeType : String
  fileBytes : Option Bytes
  filePath : Option String
  successKey : String
  deriving Repr

/-- The database and filesystem state a batch commit touches. -/
structure SyncStateDb where
  photos : List Photo
  syncFiles : List DriveSyncFileRow
  checkpoints : List (Nat × Nat × Option String)
  queue : List String
  fs : List (String × Bytes)
  nextPhotoId : Nat
  deriving Repr

/-- The counters dictionary of process_drive_sync_job. -/
structure SyncCounters where
  processed : Nat
  uploaded : Nat
  skipped : Nat
  failed : Nat
  deriving Repr, DecidableEq

/-- Key equality on DriveSyncFile rows: the unique tuple is
(user_id, source_file_id, source_entry_id). -/
def syncKeyEq (r : DriveSyncFileRow) (userId : Nat) (fid eid : String) : Bool :=
  r.userId == userId && r.sourceFileId == fid && r.sourceEntryId == eid

/-- Embedding of drive_sync._upsert_sync_file: return the existing row
for the key, or insert a fresh pending row.  Result is the row together
with the updated table. -/
def upsert_sync_file (rows : List DriveSyncFileRow) (jobId userId : Nat)
    (fid eid filename mimeType : String) (sizeBytes : Nat) :
    DriveSyncFileRow × List DriveSyncFileRow :=
  match rows.find? (fun r => syncKeyEq r userId fid eid) with
  | some row => (row, rows)
  | none =>
    let row : DriveSyncFileRow :=
      { jobId := jobId, userId := userId, sourceFileId := fid, sourceEntryId := eid
        filename := filename, mimeType := mimeType, sizeBytes := sizeBytes
        state := "pending", batchNo := 0, errorMessage := none, processedAt := none }
    (row, rows ++ [row])

/-- Point update of the sync file row with the given key. -/
def updateSyncRow (rows : List DriveSyncFileRow) (userId : Nat) (fid eid : String)
    (f : DriveSyncFileRow → DriveSyncFileRow) : List DriveSyncFileRow :=
  rows.map fun r => if syncKeyEq r userId fid eid then f r else r

/-- Temp file lookup (Path.exists and read_bytes are both lookups). -/
def fsLookup (fs : List (String × Bytes)) (path : String) : Option Bytes :=
  (fs.find? (fun kv => kv.1 == path)).map (fun kv => kv.2)

/-- Path.unlink with missing_ok. -/
def fsUnlink (fs : List (String × Bytes)) (path : String) : List (String × Bytes) :=
  fs.filter fun kv => !(kv.1 == path)

/-- Unlink the temp file of an item when it has one (the finally block of
the item loop and the skip branches). -/
def unlinkItem (fs : List (String × Bytes)) (item : BatchItem) : List (String × Bytes) :=
  match item.filePath with
  | some p => fsUnlink fs p
  | none => fs

/-- Accumulator of the item loop of drive_sync._save_batch_photos. -/
structure SaveBatchAcc where
  syncFiles : List DriveSyncFileRow
  photosToInsert : List PhotoDraft
  counters : SyncCounters
  latestSuccessKey : Option String
  fs : List (String × Bytes)
  nextKeyToken : Nat
  deriving Repr

/-- Embedding of the try block of drive_sync._save_batch_photos for an
item whose payload bytes are in hand. -/
def save_batch_try (ctx : IngestCtx) (userId batchNo : Nat)
    (acc : SaveBatchAcc) (item : BatchItem) (fileBytes : Bytes) : SaveBatchAcc :=
  let markFailed := fun (msg : String) =>
    { acc with
      syncFiles := updateSyncRow acc.syncFiles userId item.sourceFileId item.sourceEntryId
        (fun r => { r with
          state := "failed"
          batchNo := batchNo
          errorMessage := some msg
          processedAt := some 0 })
      counters := { acc.counters with failed := acc.counters.failed + 1 }
      fs := unlinkItem acc.fs item }
  match ctx.phash fileBytes with
  | none => markFailed "phash"
  | some phashStr =>
    let thumbnailBytes := ctx.thumbnail fileBytes
    let exif := ctx.exif fileBytes
    let storageKey :=
      "users/" ++ toString userId ++ "/photos/" ++ toString acc.nextKeyToken ++ ".jpg"
    let thumbnailKey :=
      "users/" ++ toString userId ++ "/thumbnails/" ++ toString (acc.nextKeyToken + 1) ++ ".webp"
    match ctx.storePut storageKey fileBytes item.mimeType with
    | .error msg => markFailed msg
    | .ok _ =>
      match ctx.storePut thumbnailKey thumbnailBytes "image/webp" with
      | .error msg => markFailed msg
      | .ok _ =>
        let draft : PhotoDraft :=
          { userId := userId
            storageKey := storageKey
            thumbnailKey := thumbnailKey
            originalFilename := item.filename
            fileSizeBytes := fileBytes.length
            mimeType := item.mimeType
            width := exif.width
            height := exif.height
            takenAt := parse_taken_at ctx exif.taken_at
            source := "google_drive"
            sourceId := some (if item.sourceEntryId != "" then item.sourceEntryId
                              else item.sourceFileId)
            phash := some phashStr }
        { acc with
          syncFiles := updateSyncRow acc.syncFiles userId item.sourceFileId item.sourceEntryId
            (fun r => { r with
              state := "completed"
              batchNo := batchNo
              processedAt := some 0 })
          photosToInsert := acc.photosToInsert ++ [draft]
          counters := { acc.counters with uploaded := acc.counters.uploaded + 1 }
          latestSuccessKey := some item.successKey
          fs := unlinkItem acc.fs item
          nextKeyToken := acc.nextKeyToken + 2 }

/-- The size computation at the head of the item loop of
drive_sync._save_batch_photos: len(file_bytes) when bytes are in memory,
else zero, and when that is zero and a temp path exists, the stat size of
the temp file. -/
def batch_item_size (fs : List (String × Bytes)) (item : BatchItem) : Nat :=
  let sizeBytes0 := match item.fileBytes with | some b => b.length | none => 0
  if sizeBytes0 == 0 then
    match item.filePath with
    | some p => match fsLookup fs p with
      | some b => b.length
      | none => sizeBytes0
    | none => sizeBytes0
  else sizeBytes0

/-- One iteration of the item loop of drive_sync._save_batch_photos,
lines 355 to 440: size computation, DriveSyncFile upsert, the skip of
already completed rows, payload loading, then the try block running
phash, thumbnail, EXIF, the two storage puts and the Photo construction;
any failure inside the try marks the row failed and counts one failure.
Reading a temp file that does not exist raises outside the try and aborts
the whole batch. -/
def save_batch_item (ctx : IngestCtx) (userId batchNo : Nat)
    (acc : SaveBatchAcc) (item : BatchItem) : Except String SaveBatchAcc :=
  let up := upsert_sync_file acc.syncFiles item.jobId userId
    item.sourceFileId item.sourceEntryId item.filename item.mimeType
    (batch_item_size acc.fs item)
  let row := up.1
  let files1 := up.2
  if row.state == "completed" then
    .ok { acc with
          syncFiles := files1
          counters := { acc.counters with skipped := acc.counters.skipped + 1 }
          fs := unlinkItem acc.fs item }
  else
    match item.fileBytes with
    | none =>
      match item.filePath with
      | some p =>
        match fsLookup acc.fs p with
        | none => .error "FileNotFoundError"
        | some b => .ok (save_batch_try ctx userId batchNo
            { acc with syncFiles := files1 } item b)
      | none =>
        .ok { acc with
              syncFiles := files1
              counters := { acc.counters with failed := acc.counters.failed + 1 }
              fs := unlinkItem acc.fs item }
    | some b => .ok (save_batch_try ctx userId batchNo
        { acc with syncFiles := files1 } item b)

/-- Fold of save_batch_item over the batch. -/
def save_batch_loop (ctx : IngestCtx) (userId batchNo : Nat) :
    List BatchItem → SaveBatchAcc → Except String SaveBatchAcc
  | [], acc => .ok acc
  | item :: rest, acc =>
    match save_batch_item ctx userId batchNo acc item with
    | .error e => .error e
    | .ok acc2 => save_batch_loop ctx userId batchNo rest acc2

/-- Turn a flushed draft into a table row: the id arrives from the
database sequence at flush time and uploaded_at takes the commit tick. -/
def photoOfDraft (id tick : Nat) (d : PhotoDraft) : Photo :=
  { id := id, userId := d.userId, storageKey := d.storageKey
    thumbnailKey := d.thumbnailKey, originalFilename := d.originalFilename
    fileSizeBytes := d.fileSizeBytes, mimeType := d.mimeType
    width := d.width, height := d.height, takenAt := d.takenAt
    uploadedAt := tick, source := d.source, sourceId := d.sourceId
    phash := d.phash, embedding := none, embeddingGeneratedAt := none
    gpsLat := none, gpsLng := none, cameraMake := none, isDeleted := false }

/-- Embedding of drive_sync._save_batch_photos: run the item loop, add
the accumulated Photo objects, flush (ids are issued), push one embedding
job per inserted photo, and upsert the DriveSyncCheckpoint of the job of
the first item with the batch number and the latest success key. -/
def save_batch_photos (ctx : IngestCtx) (userId batchNo tick : Nat)
    (items : List BatchItem) (st : SyncStateDb) (counters : SyncCounters) :
    Except String (SyncStateDb × SyncCounters) :=
  let acc0 : SaveBatchAcc :=
    { syncFiles := st.syncFiles, photosToInsert := [], counters := counters
      latestSuccessKey := none, fs := st.fs, nextKeyToken := 0 }
  match save_batch_loop ctx userId batchNo items acc0 with
  | .error e => .error e
  | .ok acc =>
    let inserted := (List.range acc.photosToInsert.length).zipWith
      (fun i d => photoOfDraft (st.nextPhotoId + i) tick d) acc.photosToInsert
    let queue2 := st.queue ++ inserted.map (fun p => toString p.id)
    let checkpoints2 :=
      match items.head? with
      | none => st.checkpoints
      | some item0 =>
        match st.checkpoints.find? (fun c => c.1 == item0.jobId) with
        | some _ => st.checkpoints.map
            (fun c => if c.1 == item0.jobId then (c.1, batchNo, acc.latestSuccessKey) else c)
        | none => st.checkpoints ++ [(item0.jobId, batchNo, acc.latestSuccessKey)]
    .ok ({ photos := st.photos ++ inserted
           syncFiles := acc.syncFiles
           checkpoints := checkpoints2
           queue := queue2
           fs := acc.fs
           nextPhotoId := st.nextPhotoId + inserted.length }, acc.counters)

/-- Number of live photos of an owner with a given perceptual hash. -/
def livePhashCount (photos : List Photo) (owner : Nat) (ph : String) : Nat :=
  (photos.filter fun p =>
    p.userId == owner && p.phash == some ph && !p.isDeleted).length

/-- The empty record extract_exif returns on any decode failure. -/
def emptyExifRecord : ExifRecord :=
  { taken_at := none, width := none, height := none
    gps_lat := none, gps_lng := none, camera_make := none }

/-- Ingestion context for the claim C2 scenario: every image hashes to
the same perceptual hash and storage accepts everything. -/
def c2ctx : IngestCtx :=
  { phash := fun _ => some "c2hash"
    thumbnail := fun _ => [0x52]
    exif := fun _ => emptyExifRecord
    strptime := fun _ => none
    storePut := fun _ _ _ => .ok () }

/-- A plain image batch item from Drive file f1. -/
def c2item1 : BatchItem :=
  { jobId := 1, sourceFileId := "f1", sourceEntryId := "", filename := "x.jpg"
    mimeType := "image/jpeg", fileBytes := some [1, 2, 3], filePath := none
    successKey := "f1" }

/-- A second batch item with identical bytes from Drive file f2. -/
def c2item2 : BatchItem :=
  { jobId := 1, sourceFileId := "f2", sourceEntryId := "", filename := "y.jpg"
    mimeType := "image/jpeg", fileBytes := some [1, 2, 3], filePath := none
    successKey := "f2" }

/-- Empty database state before the batch. -/
def c2state0 : SyncStateDb :=
  { photos := [], syncFiles := [], checkpoints := [], queue := [], fs := []
    nextPhotoId := 100 }

/-- Zeroed counters. -/
def c2counters0 : SyncCounters :=
  { processed := 0, uploaded := 0, skipped := 0, failed := 0 }

/-- The commit of the two item batch. -/
def c2run : Except String (SyncStateDb × SyncCounters) :=
  save_batch_photos c2ctx 9 1 500 [c2item1, c2item2] c2state0 c2counters0

/-- Counterexample to claim C2.  Committing one drive sync batch holding
two files with identical bytes, hence one perceptual hash, for the same
owner succeeds and leaves two live Photo rows with that (owner, phash)
pair, and the skipped counter stays zero: the ingestor never consults the
existing photos by phash. -/
theorem claim_C2_counterexample :
    (c2run.toOption.map fun r => (livePhashCount r.1.photos 9 "c2hash", r.2.skipped))
      = some (2, 0) := by rfl

/-- The Photo object the try block of the batch commit constructs for a
first batch item with payload b and hash ph: keys use the first two key
tokens of the commit. -/
def c2Draft (ctx : IngestCtx) (user : Nat) (item : BatchItem) (b : Bytes) (ph : String) :
    PhotoDraft :=
  { userId := user
    storageKey := "users/" ++ toString user ++ "/photos/" ++ toString 0 ++ ".jpg"
    thumbnailKey := "users/" ++ toString user ++ "/thumbnails/" ++ toString (0 + 1) ++ ".webp"
    originalFilename := item.filename
    fileSizeBytes := b.length
    mimeType := item.mimeType
    width := (ctx.exif b).width
    height := (ctx.exif b).height
    takenAt := parse_taken_at ctx (ctx.exif b).taken_at
    source := "google_drive"
    sourceId := some (if item.sourceEntryId != "" then item.sourceEntryId
                      else item.sourceFileId)
    phash := some ph }

/-- Claim C2 as the code actually behaves.  A batch item whose source
entry has no DriveSyncFile row yet and whose pipeline steps succeed is
always inserted, even when a live photo of the same owner with the same
perceptual hash already exists, and the skipped counter is untouched; so
after the commit at least two live rows share the (owner, phash) pair.
The skipped counter reacts only to source entries whose DriveSyncFile row
is already completed, never to phash duplicates. -/
theorem claim_C2 (ctx : IngestCtx) (user batchNo tick : Nat) (item : BatchItem)
    (st : SyncStateDb) (counters : SyncCounters) (b : Bytes) (ph : String)
    (hb : item.fileBytes = some b)
    (hnew : st.syncFiles.find?
      (fun r => syncKeyEq r user item.sourceFileId item.sourceEntryId) = none)
    (hph : ctx.phash b = some ph)
    (hput : ∀ k bs ct, ctx.storePut k bs ct = .ok ())
    (hdup : ∃ p, p ∈ st.photos ∧ p.userId = user ∧ p.phash = some ph ∧ p.isDeleted = false) :
    ∃ st2 cnt2,
      save_batch_photos ctx user batchNo tick [item] st counters = .ok (st2, cnt2)
      ∧ livePhashCount st2.photos user ph = livePhashCount st.photos user ph + 1
      ∧ 2 ≤ livePhashCount st2.photos user ph
      ∧ cnt2.skipped = counters.skipped := by
  have hrun :
      save_batch_photos ctx user batchNo tick [item] st counters =
        .ok ({ photos := st.photos ++ [photoOfDraft st.nextPhotoId tick (c2Draft ctx user item b ph)]
               syncFiles := updateSyncRow
                 (st.syncFiles ++
                   [{ jobId := item.jobId, userId := user
                      sourceFileId := item.sourceFileId
                      sourceEntryId := item.sourceEntryId
                      filename := item.filename, mimeType := item.mimeType
                      sizeBytes := batch_item_size st.fs item
                      state := "pending", batchNo := 0
                      errorMessage := none, processedAt := none }])
                 user item.sourceFileId item.sourceEntryId
                 (fun r => { r with
                   state := "completed"
                   batchNo := batchNo
                   processedAt := some 0 })
               checkpoints :=
                 match st.checkpoints.find? (fun c => c.1 == item.jobId) with
                 | some _ => st.checkpoints.map
                     (fun c => if c.1 == item.jobId then
                        (c.1, batchNo, some item.successKey) else c)
                 | none => st.checkpoints ++ [(item.jobId, batchNo, some item.successKey)]
               queue := st.queue ++ [toString st.nextPhotoId]
               fs := unlinkItem st.fs item
               nextPhotoId := st.nextPhotoId + 1 },
             { counters with uploaded := counters.uploaded + 1 }) := by
    simp only [save_batch_photos, save_batch_loop, save_batch_item, save_batch_try,
      upsert_sync_file, hb, hnew, hph, hput, c2Draft]
    simp [photoOfDraft, List.range_succ]
  refine ⟨_, _, hrun, ?_, ?_, rfl⟩
  · show livePhashCount
        (st.photos ++ [photoOfDraft st.nextPhotoId tick (c2Draft ctx user item b ph)]) user ph
      = livePhashCount st.photos user ph + 1
    simp [livePhashCount, List.filter_append, photoOfDraft, c2Draft]
  · show 2 ≤ livePhashCount
        (st.photos ++ [photoOfDraft st.nextPhotoId tick (c2Draft ctx user item b ph)]) user ph
    obtain ⟨p, hp, hu, hph2, hd⟩ := hdup
    have hmem : p ∈ st.photos.filter
        (fun q => q.userId == user && q.phash == some ph && !q.isDeleted) := by
      rw [List.mem_filter]
      exact ⟨hp, by simp [hu, hph2, hd]⟩
    have h1 : 1 ≤ livePhashCount st.photos user ph := by
      have := List.length_pos.mpr (List.ne_nil_of_mem hmem)
      simpa [livePhashCount] using this
    have h2 : livePhashCount
        (st.photos ++ [photoOfDraft st.nextPhotoId tick (c2Draft ctx user item b ph)]) user ph
        = livePhashCount st.photos user ph + 1 := by
      simp [livePhashCount, List.filter_append, photoOfDraft, c2Draft]
    omega

/-- A live photo of owner 9 already carrying the hash of the incoming
batch item. -/
def c2wPhoto : Photo :=
  { id := 50, userId := 9, storageKey := "users/9/photos/old.jpg"
    thumbnailKey := "users/9/thumbnails/old.webp", originalFilename := "old.jpg"
    fileSizeBytes := 3, mimeType := "image/jpeg", width := none, height := none
    takenAt := none, uploadedAt := 10, source := "manual_upload", sourceId := none
    phash := some "c2hash", embedding := none, embeddingGeneratedAt := none
    gpsLat := none, gpsLng := none, cameraMake := none, isDeleted := false }

/-- Database state that already holds the duplicate. -/
def c2wState : SyncStateDb :=
  { photos := [c2wPhoto], syncFiles := [], checkpoints := [], queue := [], fs := []
    nextPhotoId := 100 }

/-- Witness for claim C2: committing a batch item whose bytes hash to a
phash already live for the same owner still inserts a second row and
skips nothing. -/
theorem claim_C2_witness :
    ∃ st2 cnt2,
      save_batch_photos c2ctx 9 1 500 [c2item1] c2wState c2counters0 = .ok (st2, cnt2)
      ∧ livePhashCount st2.photos 9 "c2hash" = livePhashCount c2wState.photos 9 "c2hash" + 1
      ∧ 2 ≤ livePhashCount st2.photos 9 "c2hash"
      ∧ cnt2.skipped = c2counters0.skipped :=
  claim_C2 c2ctx 9 1 500 c2item1 c2wState c2counters0 [1, 2, 3] "c2hash"
    (by rfl) (by rfl) (by rfl) (fun _ _ _ => rfl)
    ⟨c2wPhoto, by simp [c2wState], rfl, rfl, rfl⟩

/-! Clip client, src/backend/app/services/clip_client.py, and the
embedding worker, src/backend/app/jobs/workers.py. -/

/-- A JSON scalar inside the embedding array: a number, or something
float() rejects. -/
inductive PyScalar where
  | num (val : ℚ)
  | nonNumeric
  deriving Repr, DecidableEq

/-- The embedding field of the JSON payload the clip service returns:
either a list, or a missing or non list value. -/
inductive EmbPayload where
  | embList (values : List PyScalar)
  | embMissing
  deriving Repr, DecidableEq

/-- The float(value) conversion over the list; any non numeric member
raises, which _extract_embedding turns into None. -/
def float_list : List PyScalar → Option (List ℚ)
  | [] => some []
  | .num v :: rest => (float_list rest).map (fun l => v :: l)
  | .nonNumeric :: _ => none

/-- Embedding of clip_client._extract_embedding: not a list or a length
other than 512 gives None, then the element conversion may also give
None. -/
def extract_embedding : EmbPayload → Option (List ℚ)
  | .embMissing => none
  | .embList vs => if vs.length != 512 then none else float_list vs

/-- The HTTP side of the clip client: configuration and the response to
an embed/image post, where none stands for any HTTPError, network
failure or JSON decode failure. -/
structure ClipCtx where
  clipServiceUrl : Option String
  embedResponse : Bytes → Option EmbPayload

/-- Embedding of clip_client.embed_image: unset base url gives None, a
failed request gives None, otherwise the payload goes through
_extract_embedding. -/
def embed_image (ctx : ClipCtx) (imageBytes : Bytes) : Option (List ℚ) :=
  match ctx.clipServiceUrl with
  | none => none
  | some _ =>
    match ctx.embedResponse imageBytes with
    | none => none
    | some payload => extract_embedding payload

/-- A photo_tags row, denormalised with the joined tag name: the tag
graph only ever reaches tags through the join in this code base. -/
structure PhotoTagRow where
  photoId : Nat
  tagName : String
  confidence : ℚ
  source : String
  deriving Repr, DecidableEq

/-- External effects of one embedding worker iteration: UUID parsing of
the queue payload, the object store read, the clip call, and the commit
timestamp. -/
structure WorkerCtx where
  clip : ClipCtx
  isUuid : String → Bool
  getFile : String → Except String Bytes
  nowTick : Nat

/-- Database state the worker sees. -/
structure WorkerState where
  photos : List Photo
  tags : List PhotoTagRow
  queue : List String
  deriving Repr

/-- Lookup of select(Photo).where(Photo.id == photo_uuid): queue entries
are the str() of photo ids. -/
def findPhotoByIdStr (photos : List Photo) (pid : String) : Option Photo :=
  photos.find? fun p => toString p.id == pid

/-- The committed effect of the success branch: the vector is written
(the code stores json.dumps of the list, which the vector column parses
back to the same numbers) and embedding_generated_at is set. -/
def setPhotoEmbedding (photos : List Photo) (pid : String) (emb : List ℚ) (tick : Nat) :
    List Photo :=
  photos.map fun p =>
    if toString p.id == pid then
      { p with embedding := some emb, embeddingGeneratedAt := some tick }
    else p

/-- Embedding of one iteration of workers.run_embedding_worker: pop one
id (an empty queue blocks and retries, leaving the state unchanged),
drop malformed ids, drop missing photos, drop photos that already carry
an embedding, re-enqueue on storage read failure, re-enqueue when
embed_image gives None, and otherwise write the vector with its
timestamp and commit.  Nothing else is touched: in particular the
photo_tags table is never written by this loop. -/
def run_embedding_worker_step (ctx : WorkerCtx) (s : WorkerState) : WorkerState :=
  match s.queue with
  | [] => s
  | photoId :: rest =>
    let s1 : WorkerState := { s with queue := rest }
    if !ctx.isUuid photoId then s1
    else match findPhotoByIdStr s1.photos photoId with
      | none => s1
      | some photo =>
        if photo.embedding.isSome then s1
        else match ctx.getFile photo.storageKey with
          | .error _ => { s1 with queue := s1.queue ++ [photoId] }
          | .ok imageBytes =>
            match embed_image ctx.clip imageBytes with
            | none => { s1 with queue := s1.queue ++ [photoId] }
            | some embedding =>
              { s1 with photos := setPhotoEmbedding s1.photos photoId embedding ctx.nowTick }

/-- A photo without an embedding, owned by user 9. -/
def c3photo : Photo :=
  { id := 1, userId := 9, storageKey := "users/9/photos/a.jpg"
    thumbnailKey := "users/9/thumbnails/a.webp", originalFilename := "a.jpg"
    fileSizeBytes := 1, mimeType := "image/jpeg", width := none, height := none
    takenAt := none, uploadedAt := 10, source := "manual_upload", sourceId := none
    phash := some "h", embedding := none, embeddingGeneratedAt := none
    gpsLat := none, gpsLng := none, cameraMake := none, isDeleted := false }

/-- Worker context where the clip service answers with a well formed 512
vector. -/
def c3ctx : WorkerCtx :=
  { clip := { clipServiceUrl := some "http://clip:8000"
              embedResponse := fun _ => some (.embList (List.replicate 512 (.num 1))) }
    isUuid := fun _ => true
    getFile := fun _ => .ok [1]
    nowTick := 777 }

/-- Initial worker state: the photo id queued, no tags anywhere. -/
def c3state : WorkerState := { photos := [c3photo], tags := [], queue := ["1"] }

/-- The state after one successful worker iteration. -/
def c3run : WorkerState := run_embedding_worker_step c3ctx c3state

/-- Counterexample to claim C3.  A successful embedding iteration writes
the vector and the timestamp, but the photo ends the cycle with no
photo_tags row at all: run_embedding_worker commits and moves on without
invoking the People Clusterer, so no person tag from source auto_people
appears. -/
theorem claim_C3_counterexample :
    (c3run.photos.map fun p => (p.embedding.isSome, p.embeddingGeneratedAt)) = [(true, some 777)]
      ∧ c3run.tags.filter (fun t => t.source == "auto_people") = [] := by
  constructor
  · rfl
  · rfl

/-- Claim C3 as the code actually behaves.  When the popped id resolves
to an existing photo with no embedding, the storage read succeeds and
embed_image returns a vector, the worker writes the vector, sets
embedding_generated_at and commits; it does not invoke the People
Clusterer, so the photo_tags table is exactly what it was before the
iteration. -/
theorem claim_C3 (ctx : WorkerCtx) (s : WorkerState) (pid : String) (rest : List String)
    (photo : Photo) (imageBytes : Bytes) (emb : List ℚ)
    (hq : s.queue = pid :: rest)
    (hu : ctx.isUuid pid = true)
    (hf : findPhotoByIdStr s.photos pid = some photo)
    (he : photo.embedding = none)
    (hg : ctx.getFile photo.storageKey = .ok imageBytes)
    (hemb : embed_image ctx.clip imageBytes = some emb) :
    run_embedding_worker_step ctx s =
      { photos := setPhotoEmbedding s.photos pid emb ctx.nowTick
        tags := s.tags
        queue := rest } := by
  simp only [run_embedding_worker_step, hq, hu, hf, he, hg, hemb,
    Option.isSome_none, Bool.not_true, Bool.false_eq_true, if_false]

/-- Witness for claim C3 at the concrete scenario. -/
theorem claim_C3_witness :
    run_embedding_worker_step c3ctx c3state =
      { photos := setPhotoEmbedding c3state.photos "1" (List.replicate 512 (1 : ℚ)) 777
        tags := c3state.tags
        queue := [] } :=
  claim_C3 c3ctx c3state "1" [] c3photo [1] (List.replicate 512 (1 : ℚ))
    (by rfl) (by rfl) (by rfl) (by rfl) (by rfl) (by rfl)

/-- Claim C9.  A clip response whose embedding list has any length other
than 512 is rejected by _extract_embedding, so the worker treats the job
as failed: the photos table is untouched (the embedding stays null and
embedding_generated_at stays unset) and the photo id is pushed back onto
the queue. -/
theorem claim_C9 (ctx : WorkerCtx) (s : WorkerState) (pid : String) (rest : List String)
    (photo : Photo) (imageBytes : Bytes) (vs : List PyScalar) (u : String)
    (hq : s.queue = pid :: rest)
    (hu : ctx.isUuid pid = true)
    (hf : findPhotoByIdStr s.photos pid = some photo)
    (he : photo.embedding = none)
    (hg : ctx.getFile photo.storageKey = .ok imageBytes)
    (hurl : ctx.clip.clipServiceUrl = some u)
    (hresp : ctx.clip.embedResponse imageBytes = some (.embList vs))
    (hlen : vs.length ≠ 512) :
    extract_embedding (.embList vs) = none
      ∧ run_embedding_worker_step ctx s =
        { photos := s.photos, tags := s.tags, queue := rest ++ [pid] } := by
  have hex : extract_embedding (.embList vs) = none := by
    simp [extract_embedding, hlen]
  refine ⟨hex, ?_⟩
  have hemb : embed_image ctx.clip imageBytes = none := by
    simp only [embed_image, hurl, hresp, hex]
  simp only [run_embedding_worker_step, hq, hu, hf, he, hg, hemb,
    Option.isSome_none, Bool.not_true, Bool.false_eq_true, if_false]

/-- Worker context answering embed/image with a 511 vector. -/
def c9ctx : WorkerCtx :=
  { clip := { clipServiceUrl := some "http://clip:8000"
              embedResponse := fun _ => some (.embList (List.replicate 511 (.num 1))) }
    isUuid := fun _ => true
    getFile := fun _ => .ok [1]
    nowTick := 777 }

/-- Witness for claim C9: the 511 vector of the spec boundary case. -/
theorem claim_C9_witness :
    extract_embedding (.embList (List.replicate 511 (.num 1))) = none
      ∧ run_embedding_worker_step c9ctx { photos := [c3photo], tags := [], queue := ["1"] } =
        { photos := [c3photo], tags := [], queue := [] ++ ["1"] } :=
  claim_C9 c9ctx { photos := [c3photo], tags := [], queue := ["1"] } "1" [] c3photo [1]
    (List.replicate 511 (.num 1)) "http://clip:8000"
    (by rfl) (by rfl) (by rfl) (by rfl) (by rfl) (by rfl) (by rfl)
    (by rw [List.length_replicate]; decide)

/-! Daily memories job, src/backend/app/jobs/workers.py lines 56 to 105. -/

/-- A row of the memory query: (Photo.user_id, Photo.id, Photo.taken_at)
for photos that are not deleted, have taken_at set, lie before the one
year cutoff and match the month and day of today; the query orders by
(user_id asc, taken_at desc). -/
structure MemQueryRow where
  userId : Nat
  photoId : Nat
  takenAt : PyDateTime
  deriving Repr, DecidableEq

/-- The per user aggregate dictionary value of the job. -/
structure MemAgg where
  photoIds : List String
  yearsAgo : Int
  deriving Repr, DecidableEq

/-- A memories table row. -/
structure MemoryRow where
  userId : String
  photoIds : List String
  label : String
  memoryDate : Nat
  deriving Repr, DecidableEq

/-- Python dict lookup on the insertion ordered association list. -/
def dictGet (m : List (String × MemAgg)) (k : String) : Option MemAgg :=
  (m.find? fun kv => kv.1 == k).map fun kv => kv.2

/-- Python dict assignment: replace in place, or append at the end. -/
def dictSet : List (String × MemAgg) → String → MemAgg → List (String × MemAgg)
  | [], k, v => [(k, v)]
  | (k0, v0) :: rest, k, v =>
    if k0 == k then (k, v) :: rest else (k0, v0) :: dictSet rest k v

/-- The two per row updates of the loop body of run_daily_memories_job:
append the photo id while fewer than 10 are kept, then raise years_ago to
max(1, now.year - taken_at.year) when that is larger. -/
def memAggStep (nowYear : Int) (agg : MemAgg) (row : MemQueryRow) : MemAgg :=
  let agg :=
    if agg.photoIds.length < 10 then
      { agg with photoIds := agg.photoIds ++ [toString row.photoId] }
    else agg
  let yearsAgo := max 1 (nowYear - row.takenAt.year)
  if yearsAgo > agg.yearsAgo then { agg with yearsAgo := yearsAgo } else agg

/-- One iteration of the row loop: fetch or create the dict entry for the
user of this row, update it and write it back. -/
def memories_fold_step (nowYear : Int) (perUser : List (String × MemAgg))
    (row : MemQueryRow) : List (String × MemAgg) :=
  let key := toString row.userId
  let cur := match dictGet perUser key with
    | some agg => agg
    | none => { photoIds := [], yearsAgo := 1 }
  dictSet perUser key (memAggStep nowYear cur row)

/-- The per_user dictionary after the whole row loop. -/
def memories_per_user (nowYear : Int) (rows : List MemQueryRow) :
    List (String × MemAgg) :=
  rows.foldl (memories_fold_step nowYear) []

/-- Embedding of workers.run_daily_memories_job given the rows the query
returned: build the per user aggregates, delete every Memory row dated
today, and insert one replacement per user with label
str(years_ago) ++ " years ago". -/
def run_daily_memories_job (nowYear : Int) (today : Nat)
    (rows : List MemQueryRow) (existing : List MemoryRow) : List MemoryRow :=
  let perUser := memories_per_user nowYear rows
  let kept := existing.filter fun m => !(m.memoryDate == today)
  kept ++ perUser.map fun kv =>
    { userId := kv.1, photoIds := kv.2.photoIds
      label := toString kv.2.yearsAgo ++ " years ago", memoryDate := today }

/-- The smallest taken_at year of a nonempty row list. -/
def minTakenYear : List MemQueryRow → Int
  | [] => 0
  | r :: rest => rest.foldl (fun m q => min m q.takenAt.year) r.takenAt.year

/-- A memory query row of the claim C4 scenario: owner 1, a photo taken
on March 3 of the given year. -/
def c4row (pid : Nat) (y : Int) (s : Nat) : MemQueryRow :=
  { userId := 1, photoId := pid, takenAt := { year := y, month := 3, day := 3, seq := s } }

/-- The scenario rows in query order (taken_at descending): twelve photos
from two years before 2026 and three from five years before. -/
def c4rows : List MemQueryRow :=
  [c4row 112 2024 12, c4row 111 2024 11, c4row 110 2024 10, c4row 109 2024 9,
   c4row 108 2024 8, c4row 107 2024 7, c4row 106 2024 6, c4row 105 2024 5,
   c4row 104 2024 4, c4row 103 2024 3, c4row 102 2024 2, c4row 101 2024 1,
   c4row 203 2021 3, c4row 202 2021 2, c4row 201 2021 1]

/-- The memories the job stores for the scenario. -/
def c4run : List MemoryRow := run_daily_memories_job 2026 300 c4rows []

/-- Counterexample to claim C4.  In the concrete scenario the stored
label is "5 years ago" and the ten kept photos are the ten most recent,
all taken two years ago; the claim computes years from the minimum year
among the kept photos, which gives "2 years ago" and disagrees with the
stored label, because the code takes the maximum over all matching rows,
not only over the ten it keeps. -/
theorem claim_C4_counterexample :
    c4run.map MemoryRow.label = ["5 years ago"]
      ∧ c4run.map MemoryRow.photoIds =
        [["112", "111", "110", "109", "108", "107", "106", "105", "104", "103"]]
      ∧ c4run.map MemoryRow.label
        ≠ [toString (max 1 ((2026 : Int) - minTakenYear (c4rows.take 10))) ++ " years ago"] := by
  refine ⟨by rfl, by rfl, by decide⟩

theorem dictGet_set_self : ∀ (m : List (String × MemAgg)) (k : String) (v : MemAgg),
    dictGet (dictSet m k v) k = some v
  | [], k, v => by simp [dictSet, dictGet]
  | (k0, v0) :: rest, k, v => by
    by_cases h : (k0 == k) = true
    · simp [dictSet, h, dictGet]
    · simp only [dictSet, h, Bool.false_eq_true, if_false]
      simp only [dictGet, List.find?_cons, h]
      exact dictGet_set_self rest k v

theorem dictGet_set_ne : ∀ (m : List (String × MemAgg)) (k u : String) (v : MemAgg),
    (k == u) = false → dictGet (dictSet m k v) u = dictGet m u
  | [], k, u, v, h => by simp [dictSet, dictGet, h]
  | (k0, v0) :: rest, k, u, v, h => by
    by_cases h0 : (k0 == k) = true
    · have hk0 : k0 = k := by exact beq_iff_eq.mp h0
      subst hk0
      simp [dictSet, dictGet, List.find?_cons, h]
    · simp only [dictSet, h0, Bool.false_eq_true, if_false]
      simp only [dictGet, List.find?_cons]
      by_cases h1 : (k0 == u) = true
      · simp [h1]
      · simp only [h1, Bool.false_eq_true, if_false]
        exact dictGet_set_ne rest k u v h

theorem dictGet_mem : ∀ (m : List (String × MemAgg)) (k : String) (v : MemAgg),
    dictGet m k = some v → (k, v) ∈ m
  | [], k, v, h => by simp [dictGet] at h
  | (k0, v0) :: rest, k, v, h => by
    by_cases h0 : (k0 == k) = true
    · have hk0 : k0 = k := beq_iff_eq.mp h0
      subst hk0
      simp [dictGet, List.find?_cons] at h
      subst h
      exact List.mem_cons_self _ _
    · simp only [dictGet, List.find?_cons, h0] at h
      exact List.mem_cons_of_mem _ (dictGet_mem rest k v (by simpa [dictGet] using h))

/-- Lookup through the whole row fold: starting from any accumulator, the
entry of a key is the aggregate of the rows of that key folded onto its
previous entry, or onto the fresh default when the key was absent; absent
keys with no rows stay absent. -/
theorem memFold_go (nowYear : Int) :
    ∀ (rows : List MemQueryRow) (acc : List (String × MemAgg)) (u : String),
    dictGet (rows.foldl (memories_fold_step nowYear) acc) u =
      match dictGet acc u with
      | some agg =>
        some ((rows.filter fun r => toString r.userId == u).foldl (memAggStep nowYear) agg)
      | none =>
        if (rows.filter fun r => toString r.userId == u) = [] then none
        else some ((rows.filter fun r => toString r.userId == u).foldl
          (memAggStep nowYear) { photoIds := [], yearsAgo := 1 })
  | [], acc, u => by
    cases h : dictGet acc u <;> simp [h]
  | r :: rest, acc, u => by
    rw [List.foldl_cons]
    have hstep := memFold_go nowYear rest (memories_fold_step nowYear acc r) u
    by_cases hk : (toString r.userId == u) = true
    · have hku : toString r.userId = u := beq_iff_eq.mp hk
      have hacc2 : dictGet (memories_fold_step nowYear acc r) u =
          some (memAggStep nowYear
            (match dictGet acc u with
             | some agg => agg
             | none => { photoIds := [], yearsAgo := 1 }) r) := by
        simp only [memories_fold_step, hku]
        exact dictGet_set_self _ _ _
      rw [hstep, hacc2]
      cases h : dictGet acc u <;>
        simp [List.filter_cons, hk, h]
    · have hacc2 : dictGet (memories_fold_step nowYear acc r) u = dictGet acc u := by
        simp only [memories_fold_step]
        exact dictGet_set_ne _ _ _ _ (by
          cases h2 : (toString r.userId == u) with
          | true => exact absurd h2 hk
          | false => rfl)
      rw [hstep, hacc2]
      cases h : dictGet acc u <;>
        simp [List.filter_cons, hk, h]

/-- The aggregate of a row list folded from the fresh default: the photo
ids are the first ten rows and years_ago is the running maximum of
max(1, now.year - taken_at.year) over all the rows. -/
theorem memAgg_fold_spec (nowYear : Int) (l : List MemQueryRow) :
    l.foldl (memAggStep nowYear) { photoIds := [], yearsAgo := 1 } =
      { photoIds := (l.take 10).map fun r => toString r.photoId
        yearsAgo := l.foldl (fun y r => max y (max 1 (nowYear - r.takenAt.year))) 1 } := by
  induction l using List.reverseRecOn with
  | nil => simp
  | append_singleton l r ih =>
    rw [List.foldl_append, List.foldl_append, ih]
    simp only [List.foldl_cons, List.foldl_nil]
    by_cases hlen : l.length < 10
    · have hids : ((l ++ [r]).take 10).map (fun q => toString q.photoId)
          = (l.take 10).map (fun q => toString q.photoId) ++ [toString r.photoId] := by
        rw [List.take_append_eq_append_take]
        have h1 : [r].take (10 - l.length) = [r] := by
          have : 1 ≤ 10 - l.length := by omega
          cases h10 : 10 - l.length with
          | zero => omega
          | succ n => simp
        rw [h1, List.map_append]
        simp
      have hcond : ((l.take 10).map fun q => toString q.photoId).length < 10 := by
        simp [List.length_take]
        omega
      simp only [memAggStep, hcond, if_true]
      by_cases hy : max 1 (nowYear - r.takenAt.year)
          > l.foldl (fun y q => max y (max 1 (nowYear - q.takenAt.year))) 1
      · simp only [hy, if_true]
        rw [hids]
        congr 1
        omega
      · simp only [hy, if_false]
        rw [hids]
        congr 1
        omega
    · have hids : (l ++ [r]).take 10 = l.take 10 := by
        rw [List.take_append_eq_append_take]
        have h0 : 10 - l.length = 0 := by omega
        simp [h0]
      have hcond : ¬ ((l.take 10).map fun q => toString q.photoId).length < 10 := by
        simp [List.length_take]
        omega
      simp only [memAggStep, hcond, if_false]
      by_cases hy : max 1 (nowYear - r.takenAt.year)
          > l.foldl (fun y q => max y (max 1 (nowYear - q.takenAt.year))) 1
      · simp only [hy, if_true]
        rw [hids]
        congr 1
        omega
      · simp only [hy, if_false]
        rw [hids]
        congr 1
        omega

theorem fold_years_min (nowYear : Int) :
    ∀ (rest : List MemQueryRow) (a : Int),
    rest.foldl (fun y r => max y (max 1 (nowYear - r.takenAt.year))) (max 1 (nowYear - a))
      = max 1 (nowYear - rest.foldl (fun m q => min m q.takenAt.year) a)
  | [], a => by simp
  | r :: rest, a => by
    rw [List.foldl_cons, List.foldl_cons]
    have h1 : max (max 1 (nowYear - a)) (max 1 (nowYear - r.takenAt.year))
        = max 1 (nowYear - min a r.takenAt.year) := by omega
    rw [h1]
    exact fold_years_min nowYear rest (min a r.takenAt.year)

/-- The years_ago fold equals the claim style formula over all rows:
max(1, now.year minus the smallest taken year). -/
theorem years_eq_min (nowYear : Int) (l : List MemQueryRow) (h : l ≠ []) :
    l.foldl (fun y r => max y (max 1 (nowYear - r.takenAt.year))) 1
      = max 1 (nowYear - minTakenYear l) := by
  match l, h with
  | r :: rest, _ =>
    rw [List.foldl_cons]
    have h1 : max 1 (max 1 (nowYear - r.takenAt.year))
        = max 1 (nowYear - r.takenAt.year) := by omega
    rw [h1, fold_years_min]
    rfl

/-- Claim C4 as the code actually behaves.  For every user with matching
rows, the job stores one memory whose photo_ids are the ids of the first
ten query rows of that user (the query orders taken_at descending, so
these are the ten most recent) and whose label is
str(max(1, now.year - min taken year among ALL matching rows of the
user)) ++ " years ago": the minimum ranges over every matching photo, not
only the ten kept ones. -/
theorem claim_C4 (nowYear : Int) (today : Nat) (rows : List MemQueryRow)
    (existing : List MemoryRow) (u : String)
    (hu : rows.filter (fun r => toString r.userId == u) ≠ []) :
    ∃ mem, mem ∈ run_daily_memories_job nowYear today rows existing
      ∧ mem.userId = u
      ∧ mem.photoIds = ((rows.filter fun r => toString r.userId == u).take 10).map
          (fun r => toString r.photoId)
      ∧ mem.label = toString (max 1 (nowYear -
          minTakenYear (rows.filter fun r => toString r.userId == u))) ++ " years ago"
      ∧ mem.memoryDate = today := by
  have hget : dictGet (memories_per_user nowYear rows) u =
      some ((rows.filter fun r => toString r.userId == u).foldl
        (memAggStep nowYear) { photoIds := [], yearsAgo := 1 }) := by
    have h := memFold_go nowYear rows [] u
    have hnone : dictGet ([] : List (String × MemAgg)) u = none := by simp [dictGet]
    rw [hnone] at h
    simpa [memories_per_user, hu] using h
  rw [memAgg_fold_spec, years_eq_min nowYear _ hu] at hget
  have hmem := dictGet_mem _ _ _ hget
  refine ⟨{ userId := u
            photoIds := ((rows.filter fun r => toString r.userId == u).take 10).map
              (fun r => toString r.photoId)
            label := toString (max 1 (nowYear -
              minTakenYear (rows.filter fun r => toString r.userId == u))) ++ " years ago"
            memoryDate := today }, ?_, rfl, rfl, rfl, rfl⟩
  unfold run_daily_memories_job
  refine List.mem_append_right _ ?_
  exact List.mem_map.mpr ⟨_, hmem, rfl⟩

/-- Witness for claim C4 at the concrete scenario: the stored memory for
user 1 keeps the ten most recent ids and is labelled from the minimum
year over all fifteen matching photos. -/
theorem claim_C4_witness :
    ∃ mem, mem ∈ run_daily_memories_job 2026 300 c4rows []
      ∧ mem.userId = "1"
      ∧ mem.photoIds = ((c4rows.filter fun r => toString r.userId == "1").take 10).map
          (fun r => toString r.photoId)
      ∧ mem.label = toString (max 1 ((2026 : Int) -
          minTakenYear (c4rows.filter fun r => toString r.userId == "1"))) ++ " years ago"
      ∧ mem.memoryDate = 300 :=
  claim_C4 2026 300 c4rows [] "1" (by decide)

/-! Sync job completion, src/backend/app/services/drive_sync.py lines
905 to 925. -/

/-- Status of a DriveSyncJob row. -/
inductive JobStatus where
  | queued
  | running
  | completed
  | failed
  | cancelled
  deriving Repr, DecidableEq

/-- A DriveSyncJob table row, restricted to the fields the completion
step touches. -/
structure DriveSyncJobRow where
  id : Nat
  userId : Nat
  folderId : String
  status : JobStatus
  lastError : Option String
  finishedAt : Option Nat
  deriving Repr, DecidableEq

/-- Embedding of the completion step of process_drive_sync_job: in one
commit the finishing job turns completed and the update statement turns
every other job of the same (owner, folder) whose status is queued,
running or failed into cancelled with the superseded note. -/
def complete_and_supersede (jobs : List DriveSyncJobRow) (jobId userId : Nat)
    (folderId : String) (tick : Nat) : List DriveSyncJobRow :=
  jobs.map fun r =>
    if r.id == jobId then
      { r with status := .completed, finishedAt := some tick }
    else if r.userId == userId && r.folderId == folderId && !(r.id == jobId)
        && (r.status == JobStatus.queued || r.status == JobStatus.running
            || r.status == JobStatus.failed) then
      { r with status := .cancelled
               lastError := some "Superseded by latest completed sync job."
               finishedAt := some tick }
    else r

/-- Claim C5.  After a job completes, no other sync job row of the same
(owner, folder) remains queued, running or failed: siblings in those
states were just cancelled, and rows that escape the update were already
completed or cancelled. -/
theorem claim_C5 (jobs : List DriveSyncJobRow) (jobId userId : Nat)
    (folderId : String) (tick : Nat) (r : DriveSyncJobRow)
    (hr : r ∈ complete_and_supersede jobs jobId userId folderId tick)
    (hu : r.userId = userId) (hf : r.folderId = folderId) (hid : r.id ≠ jobId) :
    r.status ≠ JobStatus.queued ∧ r.status ≠ JobStatus.running
      ∧ r.status ≠ JobStatus.failed := by
  obtain ⟨r0, hr0, heq⟩ := List.mem_map.mp hr
  by_cases h1 : (r0.id == jobId) = true
  · rw [if_pos h1] at heq
    exfalso
    apply hid
    rw [← heq]
    exact beq_iff_eq.mp h1
  · rw [if_neg (by simp [h1])] at heq
    by_cases h2 : (r0.userId == userId && r0.folderId == folderId && !(r0.id == jobId)
        && (r0.status == JobStatus.queued || r0.status == JobStatus.running
            || r0.status == JobStatus.failed)) = true
    · rw [if_pos h2] at heq
      rw [← heq]
      refine ⟨?_, ?_, ?_⟩ <;> simp
    · rw [if_neg (by simp_all)] at heq
      subst heq
      simp only [Bool.and_eq_true, Bool.or_eq_true, beq_iff_eq, Bool.not_eq_eq_eq_not,
        Bool.not_true, not_and, not_or] at h2
      have h3 := h2 ⟨⟨hu, hf⟩, by simp [h1]⟩
      refine ⟨?_, ?_, ?_⟩ <;> intro hs <;> exact absurd hs (by tauto)

/-- Witness for claim C5: a queued sibling of a completing job for the
same owner and folder ends up cancelled. -/
theorem claim_C5_witness :
    ({ id := 1, userId := 5, folderId := "F", status := JobStatus.cancelled
       lastError := some "Superseded by latest completed sync job."
       finishedAt := some 60 } : DriveSyncJobRow).status ≠ JobStatus.queued ∧
    ({ id := 1, userId := 5, folderId := "F", status := JobStatus.cancelled
       lastError := some "Superseded by latest completed sync job."
       finishedAt := some 60 } : DriveSyncJobRow).status ≠ JobStatus.running ∧
    ({ id := 1, userId := 5, folderId := "F", status := JobStatus.cancelled
       lastError := some "Superseded by latest completed sync job."
       finishedAt := some 60 } : DriveSyncJobRow).status ≠ JobStatus.failed :=
  claim_C5
    [{ id := 1, userId := 5, folderId := "F", status := JobStatus.queued
       lastError := none, finishedAt := none },
     { id := 2, userId := 5, folderId := "F", status := JobStatus.running
       lastError := none, finishedAt := none }]
    2 5 "F" 60
    { id := 1, userId := 5, folderId := "F", status := JobStatus.cancelled
      lastError := some "Superseded by latest completed sync job."
      finishedAt := some 60 }
    (by decide) rfl rfl (by decide)

/-! People clusterer, src/backend/app/services/people.py. -/

/-- people.PERSON_NAME_PREFIX constant value. -/
def person_name_marker : String := "person:"

/-- people.PERSON_CLUSTER_PREFIX constant value. -/
def person_cluster_marker : String := "person_cluster:"

/-- Embedding of people._to_float_list: None becomes the empty list,
stored vectors come back as their numbers. -/
def to_float_list : Option (List ℚ) → List ℚ
  | none => []
  | some l => l

/-- A tag name is a person tag when it starts with person: or with
person_cluster: (the like filters of people.py). -/
def is_person_tag_name (n : String) : Bool :=
  strStartsWith n person_name_marker || strStartsWith n person_cluster_marker

/-- The candidate loop of people.auto_assign_person_cluster, lines 95 to
104: over the rows (embedding, tag name) of the candidate query, skip
rows with empty vectors, score the rest with cosine similarity, and keep
the strictly best score with its tag name, starting from score 0 and no
tag.  The cosine function is a parameter: floating point cosine is
abstracted by an exact score function. -/
def best_candidate (cos : List ℚ → List ℚ → ℚ) (src : List ℚ)
    (rows : List (Option (List ℚ) × String)) : ℚ × Option String :=
  rows.foldl
    (fun best row =>
      let candidateVector := to_float_list row.1
      if candidateVector.isEmpty then best
      else
        let score := cos src candidateVector
        if score > best.1 then (score, some row.2) else best)
    (0, none)

/-- The tag choice of people.auto_assign_person_cluster, lines 106 to
107: mint a fresh person_cluster tag when there is no best candidate or
the best score is strictly below the threshold, else reuse the best
candidate tag name. -/
def choose_person_tag (cos : List ℚ → List ℚ → ℚ) (src : List ℚ)
    (rows : List (Option (List ℚ) × String)) (threshold : ℚ) (tok : String) : String :=
  let best := best_candidate cos src rows
  match best.2 with
  | none => person_cluster_marker ++ tok
  | some name => if best.1 < threshold then person_cluster_marker ++ tok else name

/-- The confidence written by line 111: Python best_score or 1.0, which
is best_score unless it is the falsy 0.0. -/
def assigned_confidence (bestScore : ℚ) : ℚ := if bestScore = 0 then 1 else bestScore

/-- Embedding of people._clear_person_tags: drop every person tag row of
this photo. -/
def clear_person_tags (tags : List PhotoTagRow) (photoId : Nat) : List PhotoTagRow :=
  tags.filter fun t => !(t.photoId == photoId && is_person_tag_name t.tagName)

/-- Embedding of people.auto_assign_person_cluster over the candidate
rows the query returned: photos with no embedding return None and write
nothing; otherwise the best candidate decides the tag name, the prior
person tags of the photo are cleared and one auto_people row is added
with confidence best_score or 1.0. -/
def auto_assign_person_cluster (cos : List ℚ → List ℚ → ℚ)
    (photoEmbedding : Option (List ℚ)) (rows : List (Option (List ℚ) × String))
    (threshold : ℚ) (tok : String) (tags : List PhotoTagRow) (photoId : Nat) :
    Option String × List PhotoTagRow :=
  let src := to_float_list photoEmbedding
  if src.isEmpty then (none, tags)
  else
    let best := best_candidate cos src rows
    let bestTagName := choose_person_tag cos src rows threshold tok
    (some bestTagName,
     clear_person_tags tags photoId ++
       [{ photoId := photoId, tagName := bestTagName
          confidence := assigned_confidence best.1, source := "auto_people" }])

/-- The best candidate fold either finds nothing and keeps score 0, or
returns the score and tag of some candidate row. -/
theorem best_candidate_spec (cos : List ℚ → List ℚ → ℚ) (src : List ℚ)
    (rows : List (Option (List ℚ) × String)) :
    ((best_candidate cos src rows).2 = none ∧ (best_candidate cos src rows).1 = 0)
    ∨ ∃ row, row ∈ rows ∧ (best_candidate cos src rows).2 = some row.2
        ∧ (best_candidate cos src rows).1 = cos src (to_float_list row.1) := by
  induction rows using List.reverseRecOn with
  | nil => left; constructor <;> rfl
  | append_singleton l r ih =>
    have hfold : best_candidate cos src (l ++ [r]) =
        (let best := best_candidate cos src l
         let candidateVector := to_float_list r.1
         if candidateVector.isEmpty then best
         else
           let score := cos src candidateVector
           if score > best.1 then (score, some r.2) else best) := by
      simp [best_candidate, List.foldl_append]
    rw [hfold]
    by_cases h1 : (to_float_list r.1).isEmpty = true
    · simp only [h1, if_true]
      rcases ih with h | ⟨row, hrow, h2, h3⟩
      · exact Or.inl h
      · exact Or.inr ⟨row, List.mem_append_left _ hrow, h2, h3⟩
    · simp only [h1, Bool.false_eq_true, if_false]
      by_cases h2 : cos src (to_float_list r.1) > (best_candidate cos src l).1
      · simp only [h2, if_true]
        exact Or.inr ⟨r, List.mem_append_right _ (List.mem_singleton.mpr rfl), rfl, rfl⟩
      · simp only [h2, if_false]
        rcases ih with h | ⟨row, hrow, h3, h4⟩
        · exact Or.inl h
        · exact Or.inr ⟨row, List.mem_append_left _ hrow, h3, h4⟩

/-- Claim C6.  With threshold 0.86, a best score at or above 0.86 (in
particular exactly 0.86) reuses the tag name of a best scoring candidate
row, and a fresh person_cluster tag is minted exactly when the best score
is strictly below 0.86. -/
theorem claim_C6 (cos : List ℚ → List ℚ → ℚ) (src : List ℚ)
    (rows : List (Option (List ℚ) × String)) (tok : String) :
    ((86 / 100 : ℚ) ≤ (best_candidate cos src rows).1 →
      ∃ row, row ∈ rows ∧ choose_person_tag cos src rows (86 / 100) tok = row.2
        ∧ cos src (to_float_list row.1) = (best_candidate cos src rows).1)
    ∧ ((best_candidate cos src rows).1 < 86 / 100 →
      choose_person_tag cos src rows (86 / 100) tok = person_cluster_marker ++ tok) := by
  have hunfold : choose_person_tag cos src rows (86 / 100) tok =
      match (best_candidate cos src rows).2 with
      | none => person_cluster_marker ++ tok
      | some name =>
        if (best_candidate cos src rows).1 < 86 / 100 then person_cluster_marker ++ tok
        else name := rfl
  constructor
  · intro hge
    rcases best_candidate_spec cos src rows with ⟨h1, h2⟩ | ⟨row, hrow, h1, h2⟩
    · rw [h2] at hge
      norm_num at hge
    · refine ⟨row, hrow, ?_, h2.symm⟩
      rw [hunfold]
      simp only [h1, not_lt.mpr hge, if_false]
  · intro hlt
    rw [hunfold]
    cases h1 : (best_candidate cos src rows).2 with
    | none => simp only [h1]
    | some name => simp only [h1, hlt, if_true]

/-- A candidate row scoring exactly the threshold 0.86. -/
def c6rows : List (Option (List ℚ) × String) := [(some [1], "person:alice")]

/-- A score function that always answers the threshold itself. -/
def c6cos : List ℚ → List ℚ → ℚ := fun _ _ => 86 / 100

/-- Witness for claim C6 at the boundary: a best similarity of exactly
0.86 reuses the candidate tag. -/
theorem claim_C6_witness :
    ∃ row, row ∈ c6rows ∧ choose_person_tag c6cos [1] c6rows (86 / 100) "tok" = row.2
      ∧ c6cos [1] (to_float_list row.1) = (best_candidate c6cos [1] c6rows).1 :=
  (claim_C6 c6cos [1] c6rows "tok").1 (by norm_num [best_candidate, c6cos, c6rows, to_float_list])

/-- A score function that always answers 0.9. -/
def c8cos : List ℚ → List ℚ → ℚ := fun _ _ => 9 / 10

/-- The clusterer run of the claim C8 scenario: one candidate tagged
person:alice scoring 0.9 against the photo. -/
def c8run : Option String × List PhotoTagRow :=
  auto_assign_person_cluster c8cos (some [1]) [(some [1], "person:alice")]
    (86 / 100) "newtok" [] 1

/-- Counterexample to claim C8.  With best score 0.9 the inserted
PhotoTag carries confidence 0.9, but max(best_score, 1.0) would be 1:
the code computes best_score or 1.0, not a maximum with 1. -/
theorem claim_C8_counterexample :
    (c8run.2.map fun t => t.confidence) = [(9 / 10 : ℚ)]
      ∧ (9 / 10 : ℚ) ≠ max (9 / 10 : ℚ) 1 := by
  constructor
  · norm_num [c8run, auto_assign_person_cluster, to_float_list, best_candidate,
      choose_person_tag, assigned_confidence, c8cos, clear_person_tags]
  · norm_num

theorem charsStartWith_append : ∀ (l m : List Char), charsStartWith (l ++ m) l = true
  | [], _ => by simp [charsStartWith]
  | c :: rest, m => by
    simp only [List.cons_append, charsStartWith, beq_self_eq_true, Bool.true_and]
    exact charsStartWith_append rest m

theorem strStartsWith_append (s t : String) : strStartsWith (s ++ t) s = true := by
  cases s with
  | mk l =>
    cases t with
    | mk m =>
      show charsStartWith (String.mk l ++ String.mk m).data l = true
      have hdata : (String.mk l ++ String.mk m).data = l ++ m := rfl
      rw [hdata]
      exact charsStartWith_append l m

/-- A freshly minted cluster tag name is a person tag. -/
theorem cluster_marker_is_person (tok : String) :
    is_person_tag_name (person_cluster_marker ++ tok) = true := by
  unfold is_person_tag_name
  rw [strStartsWith_append]
  simp

/-- Claim C8 as the code actually behaves.  When the photo has an
embedding and every candidate row carries a person tag, the clusterer
picks one tag name (itself a person tag), removes every prior person tag
row of the photo, and appends exactly one auto_people row whose
confidence is best_score when that is nonzero and 1.0 otherwise (Python
best_score or 1.0), not max(best_score, 1.0); rows of other photos and
non person rows are untouched. -/
theorem claim_C8 (cos : List ℚ → List ℚ → ℚ) (emb : Option (List ℚ))
    (rows : List (Option (List ℚ) × String)) (threshold : ℚ) (tok : String)
    (tags : List PhotoTagRow) (photoId : Nat)
    (hsrc : (to_float_list emb).isEmpty = false)
    (hrows : ∀ row, row ∈ rows → is_person_tag_name row.2 = true) :
    ∃ nm,
      auto_assign_person_cluster cos emb rows threshold tok tags photoId
        = (some nm,
           clear_person_tags tags photoId ++
             [{ photoId := photoId, tagName := nm
                confidence :=
                  if (best_candidate cos (to_float_list emb) rows).1 = 0 then 1
                  else (best_candidate cos (to_float_list emb) rows).1
                source := "auto_people" }])
      ∧ is_person_tag_name nm = true
      ∧ ((auto_assign_person_cluster cos emb rows threshold tok tags photoId).2.filter
          fun t => t.photoId == photoId && is_person_tag_name t.tagName)
        = [{ photoId := photoId, tagName := nm
             confidence :=
               if (best_candidate cos (to_float_list emb) rows).1 = 0 then 1
               else (best_candidate cos (to_float_list emb) rows).1
             source := "auto_people" }]
      ∧ ((auto_assign_person_cluster cos emb rows threshold tok tags photoId).2.filter
          fun t => !(t.photoId == photoId && is_person_tag_name t.tagName))
        = clear_person_tags tags photoId := by
  have hnm : is_person_tag_name
      (choose_person_tag cos (to_float_list emb) rows threshold tok) = true := by
    have hunfold : choose_person_tag cos (to_float_list emb) rows threshold tok =
        match (best_candidate cos (to_float_list emb) rows).2 with
        | none => person_cluster_marker ++ tok
        | some name =>
          if (best_candidate cos (to_float_list emb) rows).1 < threshold then
            person_cluster_marker ++ tok
          else name := rfl
    rw [hunfold]
    rcases best_candidate_spec cos (to_float_list emb) rows with ⟨h1, _⟩ |
      ⟨row, hrow, h1, _⟩
    · simp only [h1]
      exact cluster_marker_is_person tok
    · simp only [h1]
      by_cases h2 : (best_candidate cos (to_float_list emb) rows).1 < threshold
      · simp only [h2, if_true]
        exact cluster_marker_is_person tok
      · simp only [h2, if_false]
        exact hrows row hrow
  have hres : (auto_assign_person_cluster cos emb rows threshold tok tags photoId).2
      = clear_person_tags tags photoId ++
        [{ photoId := photoId
           tagName := choose_person_tag cos (to_float_list emb) rows threshold tok
           confidence :=
             if (best_candidate cos (to_float_list emb) rows).1 = 0 then 1
             else (best_candidate cos (to_float_list emb) rows).1
           source := "auto_people" }] := by
    simp only [auto_assign_person_cluster, hsrc, Bool.false_eq_true, if_false,
      assigned_confidence]
  have hclear : ((clear_person_tags tags photoId).filter
      fun t => t.photoId == photoId && is_person_tag_name t.tagName) = [] := by
    unfold clear_person_tags
    rw [List.filter_filter]
    have hfalse : ∀ t : PhotoTagRow,
        ((t.photoId == photoId && is_person_tag_name t.tagName)
          && !(t.photoId == photoId && is_person_tag_name t.tagName)) = false := by
      intro t
      cases t.photoId == photoId && is_person_tag_name t.tagName <;> rfl
    simp only [hfalse, List.filter_false]
  refine ⟨choose_person_tag cos (to_float_list emb) rows threshold tok, ?_, hnm, ?_, ?_⟩
  · simp only [auto_assign_person_cluster, hsrc, Bool.false_eq_true, if_false,
      assigned_confidence]
  · rw [hres, List.filter_append, hclear]
    simp [hnm]
  · rw [hres, List.filter_append]
    have hstable : ((clear_person_tags tags photoId).filter
        fun t => !(t.photoId == photoId && is_person_tag_name t.tagName))
        = clear_person_tags tags photoId := by
      unfold clear_person_tags
      rw [List.filter_filter]
      simp only [Bool.and_self]
    rw [hstable]
    simp [hnm]

/-- Witness for claim C8 at the 0.9 score scenario. -/
theorem claim_C8_witness :
    ∃ nm,
      auto_assign_person_cluster c8cos (some [1]) [(some [1], "person:alice")]
          (86 / 100) "newtok" [] 1
        = (some nm,
           clear_person_tags [] 1 ++
             [{ photoId := 1, tagName := nm
                confidence :=
                  if (best_candidate c8cos (to_float_list (some [1]))
                      [(some [1], "person:alice")]).1 = 0 then 1
                  else (best_candidate c8cos (to_float_list (some [1]))
                      [(some [1], "person:alice")]).1
                source := "auto_people" }])
      ∧ is_person_tag_name nm = true
      ∧ ((auto_assign_person_cluster c8cos (some [1]) [(some [1], "person:alice")]
          (86 / 100) "newtok" [] 1).2.filter
          fun t => t.photoId == 1 && is_person_tag_name t.tagName)
        = [{ photoId := 1, tagName := nm
             confidence :=
               if (best_candidate c8cos (to_float_list (some [1]))
                   [(some [1], "person:alice")]).1 = 0 then 1
               else (best_candidate c8cos (to_float_list (some [1]))
                   [(some [1], "person:alice")]).1
             source := "auto_people" }]
      ∧ ((auto_assign_person_cluster c8cos (some [1]) [(some [1], "person:alice")]
          (86 / 100) "newtok" [] 1).2.filter
          fun t => !(t.photoId == 1 && is_person_tag_name t.tagName))
        = clear_person_tags [] 1 :=
  claim_C8 c8cos (some [1]) [(some [1], "person:alice")] (86 / 100) "newtok" [] 1
    (by rfl)
    (fun row hr => by rw [List.mem_singleton.mp hr]; decide)

/-! Claim C7: the image type detector. -/

/-- Four bytes carrying the JPEG magic header. -/
def c7jpegBytes : Bytes := [0xFF, 0xD8, 0xFF, 0xE0]

/-- Counterexample to claim C7.  Bytes with a JPEG magic header under a
filename with a .png extension are classified image/png: the detector
consults the filename extension first and never reaches the magic byte
checks when the extension maps to an image mime, while the claim says
magic bytes win and expects image/jpeg. -/
theorem claim_C7_counterexample :
    detect_image_content_type "photo.png" c7jpegBytes = some "image/png"
      ∧ (some "image/png" : Option String) ≠ some "image/jpeg" := by
  constructor
  · rfl
  · decide

/-- Claim C7 as the code actually behaves.  The detector is extension
first: a filename whose mimetypes guess is an image mime decides the
result regardless of the bytes, and the magic byte cascade (JPEG, PNG,
GIF, WebP, HEIC via ftyp) is consulted only when the extension yields no
image mime; in particular JPEG magic bytes under a .png name give
image/png. -/
theorem claim_C7 (filename : String) (fileBytes : Bytes) :
    (∀ g, mimetypes_guess_type filename = some g → strStartsWith g "image/" = true →
      detect_image_content_type filename fileBytes = some g)
    ∧ ((∀ g, mimetypes_guess_type filename = some g → strStartsWith g "image/" = false) →
      detect_image_content_type filename fileBytes = magicImageMime fileBytes) := by
  constructor
  · intro g hg himg
    unfold detect_image_content_type
    rw [hg]
    simp only [himg, if_true]
  · intro h
    unfold detect_image_content_type
    cases hg : mimetypes_guess_type filename with
    | none => rfl
    | some g => simp only [h g hg, Bool.false_eq_true, if_false]

/-- Witness for claim C7: a .png filename decides image/png whatever the
bytes hold. -/
theorem claim_C7_witness : detect_image_content_type "x.png" [0x01] = some "image/png" :=
  (claim_C7 "x.png" [0x01]).1 "image/png" (by rfl) (by rfl)

/-! Claim C10: per photo endpoints of src/backend/app/api/photos.py. -/

/-- An HTTPException raised by a route. -/
structure ApiError where
  status : Nat
  detail : String
  deriving Repr, DecidableEq

/-- Embedding of photos.delete_photo (soft delete): the photo is looked
up by id alone, a missing photo is 404, a photo of another owner is 403
Forbidden, and only then is is_deleted set and committed. -/
def delete_photo (db : List Photo) (requesterId pid : Nat) :
    Except ApiError (List Photo) :=
  match db.find? (fun p => p.id == pid) with
  | none => .error { status := 404, detail := "Photo not found" }
  | some photo =>
    if photo.userId != requesterId then
      .error { status := 403, detail := "Forbidden" }
    else
      .ok (db.map fun p => if p.id == pid then { p with isDeleted := true } else p)

/-- Embedding of photos.get_photo: the select filters by id, the
requester as owner, and not deleted; no row is 404.  The route only
reads. -/
def get_photo (db : List Photo) (requesterId pid : Nat) :
    Except ApiError (List Photo) :=
  match db.find? (fun p => p.id == pid && p.userId == requesterId && !p.isDeleted) with
  | none => .error { status := 404, detail := "Photo not found" }
  | some _ => .ok db

/-- Embedding of photos.restore_photo: the select filters by id, the
requester as owner, and deleted; no row is 404, else is_deleted is
cleared. -/
def restore_photo (db : List Photo) (requesterId pid : Nat) :
    Except ApiError (List Photo) :=
  match db.find? (fun p => p.id == pid && p.userId == requesterId && p.isDeleted) with
  | none => .error { status := 404, detail := "Photo not found in trash" }
  | some _ =>
    .ok (db.map fun p => if p.id == pid then { p with isDeleted := false } else p)

/-- Embedding of photos.hard_delete_photo: the select filters by id and
the requester as owner; no row is 404, else the storage objects are
deleted (errors swallowed) and the row is removed. -/
def hard_delete_photo (db : List Photo) (requesterId pid : Nat) :
    Except ApiError (List Photo) :=
  match db.find? (fun p => p.id == pid && p.userId == requesterId) with
  | none => .error { status := 404, detail := "Photo not found" }
  | some _ => .ok (db.filter fun p => !(p.id == pid))

/-- The photos table after a route answers: an error response rolls back
to the incoming table, a success carries the new table. -/
def endpointTable (db : List Photo) (r : Except ApiError (List Photo)) : List Photo :=
  match r with
  | .error _ => db
  | .ok db2 => db2

theorem find_photo_unique : ∀ (db : List Photo) (p : Photo) (pid : Nat),
    p ∈ db → p.id = pid → (db.map Photo.id).Nodup →
    db.find? (fun q => q.id == pid) = some p
  | [], p, pid, hmem, _, _ => by simp at hmem
  | q :: rest, p, pid, hmem, hid, hnd => by
    rw [List.map_cons, List.nodup_cons] at hnd
    by_cases hq : (q.id == pid) = true
    · simp only [List.find?, hq]
      rcases List.mem_cons.mp hmem with h | h
      · rw [h]
      · exfalso
        apply hnd.1
        have hin : p.id ∈ rest.map Photo.id := List.mem_map.mpr ⟨p, h, rfl⟩
        rw [hid] at hin
        rw [beq_iff_eq.mp hq]
        exact hin
    · have hq2 : (q.id == pid) = false := by simpa using hq
      simp only [List.find?, hq2]
      rcases List.mem_cons.mp hmem with h | h
      · exfalso
        apply hq
        rw [h] at hid
        exact beq_iff_eq.mpr hid
      · exact find_photo_unique rest p pid h hid hnd.2

/-- Claim C10.  A request against an existing photo owned by another
user: soft delete answers 403 Forbidden, while get, restore and hard
delete answer 404 because their queries filter by the requester as
owner; in all four cases the photos table is left unchanged. -/
theorem claim_C10 (db : List Photo) (requesterId pid : Nat) (p : Photo)
    (hmem : p ∈ db) (hid : p.id = pid) (howner : p.userId ≠ requesterId)
    (hnd : (db.map Photo.id).Nodup) :
    delete_photo db requesterId pid = .error { status := 403, detail := "Forbidden" }
    ∧ get_photo db requesterId pid = .error { status := 404, detail := "Photo not found" }
    ∧ restore_photo db requesterId pid
        = .error { status := 404, detail := "Photo not found in trash" }
    ∧ hard_delete_photo db requesterId pid
        = .error { status := 404, detail := "Photo not found" }
    ∧ endpointTable db (delete_photo db requesterId pid) = db
    ∧ endpointTable db (get_photo db requesterId pid) = db
    ∧ endpointTable db (restore_photo db requesterId pid) = db
    ∧ endpointTable db (hard_delete_photo db requesterId pid) = db := by
  have huniq : ∀ q, q ∈ db → q.id = pid → q = p := by
    intro q hq hqid
    exact List.inj_on_of_nodup_map hnd hq hmem (by rw [hqid, hid])
  have hownerFalse : ∀ q, q ∈ db → (q.id == pid && q.userId == requesterId) = false := by
    intro q hq
    by_cases h1 : (q.id == pid) = true
    · have hq2 := huniq q hq (beq_iff_eq.mp h1)
      subst hq2
      simp [beq_iff_eq, howner]
    · simp [Bool.and_eq_true, h1]
  have hdel : delete_photo db requesterId pid
      = .error { status := 403, detail := "Forbidden" } := by
    unfold delete_photo
    rw [find_photo_unique db p pid hmem hid hnd]
    simp [bne_iff_ne, howner]
  have hget : get_photo db requesterId pid
      = .error { status := 404, detail := "Photo not found" } := by
    unfold get_photo
    rw [List.find?_eq_none.mpr ?_]
    intro q hq
    have hthis := hownerFalse q hq
    simp only [Bool.and_eq_true, not_and, Bool.not_eq_true]
    intro hcontra
    rcases hcontra with ⟨h1, h2⟩
    rw [h1, h2] at hthis
    simp at hthis
  have hres : restore_photo db requesterId pid
      = .error { status := 404, detail := "Photo not found in trash" } := by
    unfold restore_photo
    rw [List.find?_eq_none.mpr ?_]
    intro q hq
    have hthis := hownerFalse q hq
    simp only [Bool.and_eq_true, not_and, Bool.not_eq_true]
    intro hcontra
    rcases hcontra with ⟨h1, h2⟩
    rw [h1, h2] at hthis
    simp at hthis
  have hhard : hard_delete_photo db requesterId pid
      = .error { status := 404, detail := "Photo not found" } := by
    unfold hard_delete_photo
    rw [List.find?_eq_none.mpr (fun q hq => by simp [hownerFalse q hq])]
  refine ⟨hdel, hget, hres, hhard, ?_, ?_, ?_, ?_⟩ <;>
    simp [endpointTable, hdel, hget, hres, hhard]

/-- The stranger owned photo of the claim C10 witness scenario. -/
def c10photo : Photo :=
  { id := 5, userId := 2, storageKey := "users/2/photos/z.jpg"
    thumbnailKey := "users/2/thumbnails/z.webp", originalFilename := "z.jpg"
    fileSizeBytes := 4, mimeType := "image/jpeg", width := none, height := none
    takenAt := none, uploadedAt := 20, source := "manual_upload", sourceId := none
    phash := some "zh", embedding := none, embeddingGeneratedAt := none
    gpsLat := none, gpsLng := none, cameraMake := none, isDeleted := false }

/-- Witness for claim C10: user 1 probing the photo of user 2. -/
theorem claim_C10_witness :
    delete_photo [c10photo] 1 5 = .error { status := 403, detail := "Forbidden" }
    ∧ get_photo [c10photo] 1 5 = .error { status := 404, detail := "Photo not found" }
    ∧ restore_photo [c10photo] 1 5
        = .error { status := 404, detail := "Photo not found in trash" }
    ∧ hard_delete_photo [c10photo] 1 5
        = .error { status := 404, detail := "Photo not found" }
    ∧ endpointTable [c10photo] (delete_photo [c10photo] 1 5) = [c10photo]
    ∧ endpointTable [c10photo] (get_photo [c10photo] 1 5) = [c10photo]
    ∧ endpointTable [c10photo] (restore_photo [c10photo] 1 5) = [c10photo]
    ∧ endpointTable [c10photo] (hard_delete_photo [c10photo] 1 5) = [c10photo] :=
  claim_C10 [c10photo] 1 5 c10photo (List.mem_singleton.mpr rfl) rfl
    (by decide) (by simp)

end SemanticPhoto
